import Mathlib

/-!
Device-emulation core of the Magenta hypervisor library.

A shallow embedding of `system/ulib/hypervisor/io_apic.c` (the IO APIC register
file) and `system/ulib/hypervisor/block.c` (the virtio block device), and
theorems about them.

Conventions of the embedding:

* machine integers are `Nat` / `Int` with explicit wrap-around (`% 2^32`, `% 2^64`);
* a C function that mutates memory through a pointer returns the new value of
  that memory next to its status;
* where C has undefined behaviour or aborts (an out-of-bounds array access, a
  failed `MX_ASSERT`) the embedding returns `Except.error` / `none`;
* constants, types and collaborators that live in headers which are not part of
  the sources at hand are parameters of the definitions or are modelled from the
  specification, and say so in their doc comment.
-/

namespace Magenta

/-! ## Status codes -/

/-- Modelled from the spec: the status codes of `magenta/errors.h` that the two
source files return or compare against (OK, invalid-argument, not-supported,
I/O error, data-integrity error, and the "continue" status of the Virtqueue
Processor); `MX_ERR_OTHER` stands for every further code a collaborator may
return. -/
inductive mx_status_t where
  | MX_OK
  | MX_ERR_INVALID_ARGS
  | MX_ERR_NOT_SUPPORTED
  | MX_ERR_IO
  | MX_ERR_IO_DATA_INTEGRITY
  | MX_ERR_NEXT
  | MX_ERR_OTHER (code : Int)
  deriving DecidableEq, Repr

open mx_status_t

/-! ## Trapped-instruction decoder (external collaborator) -/

/-- Modelled from the spec: a decoded trapped instruction, "a typed read or
read-modify-write of a fixed-width register". `read mem` loads `mem` bytes from
the trapped address into a guest register, `write mem val` stores the `mem`-byte
value `val` (taken from a guest register or an immediate) to the trapped
address, `other` is any instruction that is neither. -/
inductive instruction_t where
  | read (mem : Nat)
  | write (mem : Nat) (val : Nat)
  | other
  deriving DecidableEq, Repr

/-- What a decoder helper did: its status, the content of the emulated register
it was pointed at after the call, and the value it loaded into the guest
register (if it performed a read). -/
structure inst_result where
  status : mx_status_t
  value : Nat
  reg : Option Nat
  deriving DecidableEq, Repr

/-- Modelled from the spec: `inst_write32` of `hypervisor/decode.h`, "a
write-only 32-bit decode" into the register `value`; every other instruction
is rejected with the decoder's status `rej` (which the spec does not name) and
leaves the register alone. -/
def inst_write32 (rej : mx_status_t) (inst : instruction_t) (value : Nat) : inst_result :=
  match inst with
  | .write 4 val => ⟨MX_OK, val % 2 ^ 32, none⟩
  | _ => ⟨rej, value, none⟩

/-- Modelled from the spec: `inst_read32` of `hypervisor/decode.h`, a read-only
32-bit access that hands `value` to the guest; "a write attempt here is handled
by the decoder as an error". -/
def inst_read32 (rej : mx_status_t) (inst : instruction_t) (value : Nat) : inst_result :=
  match inst with
  | .read 4 => ⟨MX_OK, value, some (value % 2 ^ 32)⟩
  | _ => ⟨rej, value, none⟩

/-- Modelled from the spec: `inst_rw32` of `hypervisor/decode.h`, a "full
read-modify-write (guest may read or write)" 32-bit access to the register
`value`. -/
def inst_rw32 (rej : mx_status_t) (inst : instruction_t) (value : Nat) : inst_result :=
  match inst with
  | .write 4 val => ⟨MX_OK, val % 2 ^ 32, none⟩
  | .read 4 => ⟨MX_OK, value, some (value % 2 ^ 32)⟩
  | _ => ⟨rej, value, none⟩

/-! ## IO APIC register file (`io_apic.c`) -/

def UINT8_MAX : Nat := 255

/- IO APIC register addresses. -/
def IO_APIC_IOREGSEL : Nat := 0x00
def IO_APIC_IOWIN : Nat := 0x10

/- IO APIC register addresses. -/
def IO_APIC_REGISTER_ID : Nat := 0x00
def IO_APIC_REGISTER_VER : Nat := 0x01
def IO_APIC_REGISTER_ARBITRATION : Nat := 0x02

/- IO APIC configuration constants. -/
def IO_APIC_VERSION : Nat := 0x11
def FIRST_REDIRECT_OFFSET : Nat := 0x10

/-- The macro `LAST_REDIRECT_OFFSET`, `FIRST_REDIRECT_OFFSET + IO_APIC_REDIRECT_OFFSETS - 1`
in 32-bit arithmetic. `N` is `IO_APIC_REDIRECT_OFFSETS`, a constant of the header
`hypervisor/io_apic.h` that is not among the sources. -/
def LAST_REDIRECT_OFFSET (N : Nat) : Nat := (FIRST_REDIRECT_OFFSET + N - 1) % 2 ^ 32

/-- The value of the version register,
`(IO_APIC_REDIRECT_OFFSETS / 2 - 1) << 16 | IO_APIC_VERSION` as a `uint32_t`. -/
def IO_APIC_VER_VALUE (N : Nat) : Nat :=
  ((((N / 2 + 2 ^ 32 - 1) % 2 ^ 32) <<< 16) % 2 ^ 32) ||| IO_APIC_VERSION

/-- The struct `io_apic_t`: the register-select register, the identification
register and the table of redirect offsets (`IO_APIC_REDIRECT_OFFSETS` slots of
32 bits). -/
structure io_apic_t where
  select : Nat
  id : Nat
  redirect : List Nat
  deriving DecidableEq, Repr

/-- The part of `mx_guest_memory_t` the handler looks at: the trapped guest
physical address. -/
structure mx_guest_memory_t where
  addr : Nat
  deriving DecidableEq, Repr

/-- Ways in which the C code leaves defined behaviour. -/
inductive Fault where
  | assertion
  | out_of_bounds
  deriving DecidableEq, Repr

deriving instance DecidableEq for Except

/-- Result of one `io_apic_handler` call: the returned status, the IO APIC
afterwards, and the value delivered to the guest register by a read. -/
structure io_apic_result where
  status : mx_status_t
  io_apic : io_apic_t
  reg : Option Nat
  deriving DecidableEq, Repr

/-- The function `io_apic_init`: `memset(io_apic, 0, sizeof(*io_apic))`. -/
def io_apic_init (N : Nat) : io_apic_t :=
  { select := 0, id := 0, redirect := List.replicate N 0 }

/-- The function `io_apic_redirect`: `io_apic->redirect[global_vector * 2] & UINT8_MAX`. -/
def io_apic_redirect (io_apic : io_apic_t) (global_vector : Nat) : Except Fault Nat :=
  match io_apic.redirect[global_vector * 2]? with
  | none => .error .out_of_bounds
  | some x => .ok (x % 256)

/-- The function `io_apic_handler`. `N` is `IO_APIC_REDIRECT_OFFSETS` and `base` is
`IO_APIC_PHYS_BASE` (header constants that are not among the sources), `rej` the
decoder's rejection status. -/
def io_apic_handler (N base : Nat) (rej : mx_status_t) (io_apic : io_apic_t)
    (memory : mx_guest_memory_t) (inst : instruction_t) : Except Fault io_apic_result :=
  if memory.addr < base then .error .assertion
  else
    let offset := memory.addr - base
    if offset = IO_APIC_IOREGSEL then
      let r := inst_write32 rej inst io_apic.select
      let io_apic' := { io_apic with select := r.value }
      if r.status ≠ MX_OK then .ok ⟨r.status, io_apic', r.reg⟩
      else .ok ⟨if io_apic'.select > UINT8_MAX then MX_ERR_INVALID_ARGS else MX_OK,
                io_apic', r.reg⟩
    else if offset = IO_APIC_IOWIN then
      if io_apic.select = IO_APIC_REGISTER_ID then
        let r := inst_rw32 rej inst io_apic.id
        .ok ⟨r.status, { io_apic with id := r.value }, r.reg⟩
      else if io_apic.select = IO_APIC_REGISTER_VER then
        let r := inst_read32 rej inst (IO_APIC_VER_VALUE N)
        .ok ⟨r.status, io_apic, r.reg⟩
      else if io_apic.select = IO_APIC_REGISTER_ARBITRATION then
        let r := inst_read32 rej inst 0
        .ok ⟨r.status, io_apic, r.reg⟩
      else if FIRST_REDIRECT_OFFSET ≤ io_apic.select ∧
          io_apic.select ≤ LAST_REDIRECT_OFFSET N then
        let i := (io_apic.select + 2 ^ 32 - FIRST_REDIRECT_OFFSET) % 2 ^ 32
        match io_apic.redirect[i]? with
        | none => .error .out_of_bounds
        | some x =>
          let r := inst_rw32 rej inst x
          .ok ⟨r.status, { io_apic with redirect := io_apic.redirect.set i r.value }, r.reg⟩
      else .ok ⟨MX_ERR_NOT_SUPPORTED, io_apic, none⟩
    else .ok ⟨MX_ERR_NOT_SUPPORTED, io_apic, none⟩

/-- A sequence of guest accesses handled one after the other by
`io_apic_handler`, each on the state the previous one left behind; the result is
that of the last access. -/
def io_apic_run (N base : Nat) (rej : mx_status_t) (io_apic : io_apic_t) :
    List (mx_guest_memory_t × instruction_t) → Except Fault io_apic_result
  | [] => .ok ⟨MX_OK, io_apic, none⟩
  | [a] => io_apic_handler N base rej io_apic a.1 a.2
  | a :: rest =>
    match io_apic_handler N base rej io_apic a.1 a.2 with
    | .error e => .error e
    | .ok r => io_apic_run N base rej r.io_apic rest

/-- A 32-bit store of `v` to the select register `IOREGSEL`. -/
def select_write (base v : Nat) : mx_guest_memory_t × instruction_t :=
  (⟨base + IO_APIC_IOREGSEL⟩, .write 4 v)

/-- A 32-bit store of `v` to the window register `IOWIN`. -/
def window_write (base v : Nat) : mx_guest_memory_t × instruction_t :=
  (⟨base + IO_APIC_IOWIN⟩, .write 4 v)

/-- A 32-bit load from the window register `IOWIN`. -/
def window_read (base : Nat) : mx_guest_memory_t × instruction_t :=
  (⟨base + IO_APIC_IOWIN⟩, .read 4)

/-! ## virtio block device (`block.c`) -/

/-- Modelled from the spec: `SECTOR_SIZE` of `hypervisor/block.h`, "512-byte
sectors". -/
def SECTOR_SIZE : Nat := 512

/-- Modelled from the spec: the request types of `virtio/block.h` ("read/write/flush"),
with the values VIRTIO Version 1.0 gives them. -/
def VIRTIO_BLK_T_IN : Nat := 0
/-- Modelled from the spec: the write request type of `virtio/block.h`. -/
def VIRTIO_BLK_T_OUT : Nat := 1
/-- Modelled from the spec: the flush request type of `virtio/block.h`. -/
def VIRTIO_BLK_T_FLUSH : Nat := 4

/-- Modelled from the spec: the "read-only feature bit" of `virtio/block.h`,
bit 5 in VIRTIO Version 1.0. -/
def VIRTIO_BLK_F_RO : Nat := 1 <<< 5

/-- Conversion of a 64-bit unsigned value to `off_t` (two's complement). -/
def to_off_t (n : Nat) : Int :=
  if n % 2 ^ 64 < 2 ^ 63 then ((n % 2 ^ 64 : Nat) : Int) else ((n % 2 ^ 64 : Nat) : Int) - 2 ^ 64

/-- Conversion of an `off_t` to a 64-bit unsigned value. -/
def to_uint64 (i : Int) : Nat := (i % 2 ^ 64).toNat

/-- The request header `virtio_blk_req_t` (`type` is 32 bits wide, `sector` 64). -/
structure virtio_blk_req_t where
  type : Nat
  ioprio : Nat
  sector : Nat
  deriving DecidableEq, Repr

/-- The fields of `virtio_device_t` that `block.c` sets or reads. -/
structure virtio_device_t where
  features : Nat
  irq_vector : Nat
  num_queues : Nat
  deriving DecidableEq, Repr

/-- The struct `block_t`: the descriptor of the backing file, its size in bytes
and the embedded virtio device. The request queue `block->queue` belongs to the
Virtqueue Processor and is part of its world (see `file_block_device`). -/
structure block_t where
  fd : Int
  size : Nat
  virtio_device : virtio_device_t
  deriving DecidableEq, Repr

/-- A `virtio_device_t*` as the device operations receive it: its `impl` field,
set by `block_null_init`, points back to the enclosing block. -/
structure virtio_device_ref where
  impl : block_t
  deriving DecidableEq, Repr

/-- Get a `block_t` from the underlying virtio device. -/
def virtio_device_to_block (virtio_device : virtio_device_ref) : block_t :=
  virtio_device.impl

/-- The struct `file_state_t`: the block and the offset, from the sector of the
request header, that the chained buffers handled so far add up to. -/
structure file_state_t where
  block : block_t
  off : Int
  deriving DecidableEq, Repr

/-- A call of the host C library made by the file backend, with its arguments;
`lseek` is always called with `SEEK_SET`. -/
inductive host_call where
  | lseek (fd : Int) (off : Int)
  | read (fd : Int) (len : Nat)
  | write (fd : Int) (buf : List Nat) (len : Nat)
  | fsync (fd : Int)
  deriving DecidableEq, Repr

/-- The host C library as the file backend uses it, over a host state `σ`: each
call returns its result (negative on failure) and the host state afterwards;
`read` also returns the content of the buffer afterwards. Any behaviour of the
host is an instance. -/
structure host_t (σ : Type) where
  lseek : σ → Int → Int → Int × σ
  read : σ → Int → List Nat → Nat → Int × List Nat × σ
  write : σ → Int → List Nat → Nat → Int × σ
  fsync : σ → Int → Int × σ

/-- Result of one `file_req` call: the returned status, the `file_state_t`
behind `ctx` and the buffer behind `addr` afterwards, the host state afterwards,
and the host calls made, in order. -/
structure file_req_result (σ : Type) where
  status : mx_status_t
  state : file_state_t
  addr : List Nat
  host : σ
  calls : List host_call

/-- The file offset `file_req` seeks to, `blk_req->sector * SECTOR_SIZE + state->off`:
computed in 64-bit unsigned arithmetic and converted to `off_t`. -/
def file_req_offset (state : file_state_t) (blk_req : virtio_blk_req_t) : Int :=
  to_off_t ((blk_req.sector * SECTOR_SIZE) % 2 ^ 64 + to_uint64 state.off)

/-- The cumulative offset after `state->off += len`. -/
def file_req_advance (state : file_state_t) (len : Nat) : file_state_t :=
  { state with off := to_off_t (to_uint64 (state.off + len)) }

/-- The `switch (blk_req->type)` of `file_req` and the comparison after it; `h`
is the host state and `calls` are the host calls made when the switch is
entered. -/
def file_req_switch {σ : Type} (H : host_t σ) (h : σ) (calls : List host_call)
    (state : file_state_t) (blk_req : virtio_blk_req_t) (addr : List Nat) (len : Nat) :
    file_req_result σ :=
  let block := state.block
  if blk_req.type = VIRTIO_BLK_T_IN then
    let r := H.read h block.fd addr len
    ⟨if r.1 ≠ (len : Int) then MX_ERR_IO else MX_OK, state, r.2.1, r.2.2,
      calls ++ [.read block.fd len]⟩
  else if blk_req.type = VIRTIO_BLK_T_OUT then
    if block.virtio_device.features &&& VIRTIO_BLK_F_RO ≠ 0 then
      ⟨MX_ERR_NOT_SUPPORTED, state, addr, h, calls⟩
    else
      let r := H.write h block.fd addr len
      ⟨if r.1 ≠ (len : Int) then MX_ERR_IO else MX_OK, state, addr, r.2,
        calls ++ [.write block.fd addr len]⟩
  else if blk_req.type = VIRTIO_BLK_T_FLUSH then
    if blk_req.sector ≠ 0 then
      ⟨MX_ERR_IO_DATA_INTEGRITY, state, addr, h, calls⟩
    else
      let len := 0
      let r := H.fsync h block.fd
      ⟨if r.1 ≠ (len : Int) then MX_ERR_IO else MX_OK, state, addr, r.2,
        calls ++ [.fsync block.fd]⟩
  else
    ⟨MX_ERR_INVALID_ARGS, state, addr, h, calls⟩

/-- The function `file_req`, the per-buffer callback of the file backend. -/
def file_req {σ : Type} (H : host_t σ) (h : σ) (state : file_state_t)
    (blk_req : virtio_blk_req_t) (addr : List Nat) (len : Nat) : file_req_result σ :=
  let block := state.block
  if blk_req.type ≠ VIRTIO_BLK_T_FLUSH then
    let off := file_req_offset state blk_req
    let state1 := file_req_advance state len
    let r := H.lseek h block.fd off
    if r.1 < 0 then
      ⟨ MX_ERR_IO, state1, addr, r.2, [.lseek block.fd off]⟩
    else
      file_req_switch H r.2 [.lseek block.fd off] state1 blk_req addr len
  else
    file_req_switch H h [] state blk_req addr len

/-- Result of one `null_req` call: the returned status and the buffer behind
`addr` afterwards. -/
structure null_req_result where
  status : mx_status_t
  addr : List Nat
  deriving DecidableEq, Repr

/-- The function `null_req`, the per-buffer callback of the null backend; `memset(addr, 0, len)`
zeroes the first `len` bytes of the buffer. -/
def null_req (blk_req : virtio_blk_req_t) (addr : List Nat) (len : Nat) : null_req_result :=
  if blk_req.type = VIRTIO_BLK_T_IN then
    ⟨MX_OK, List.replicate len 0 ++ addr.drop len⟩
  else if blk_req.type = VIRTIO_BLK_T_OUT then
    ⟨MX_OK, addr⟩
  else if blk_req.type = VIRTIO_BLK_T_FLUSH then
    if blk_req.sector ≠ 0 then ⟨MX_ERR_IO_DATA_INTEGRITY, addr⟩
    else ⟨MX_OK, addr⟩
  else ⟨MX_ERR_INVALID_ARGS, addr⟩

/-- Modelled from the spec: the Virtqueue Processor `virtio_queue_handler`
(`virtio/virtio.h`), an external collaborator, applied to the queue of the block
and to the callback `file_req`. One call walks the queue and the guest memory,
hands each buffer to the callback together with the context it was started
with, and signals "more work" (`MX_ERR_NEXT`), "queue empty" or an error. `W` is
the world the processor and its callback act on (queue, guest memory, backing
file); any behaviour of the processor is an instance. -/
abbrev virtio_queue_handler_t (W : Type) := W → file_state_t → mx_status_t × W

/-- Result of a queue drain: the returned status, the world afterwards, and the
context each call of the Virtqueue Processor was started with, in order. -/
structure drain_result (W : Type) where
  status : mx_status_t
  world : W
  contexts : List file_state_t

/-- The function `file_block_device`: the do-while loop around `virtio_queue_handler`. The
loop has no bound of its own; `fuel` bounds the number of iterations in the
embedding, and `none` means that the bound was reached. -/
def file_block_device {W : Type} (virtio_queue_handler : virtio_queue_handler_t W)
    (block : block_t) : Nat → W → Option (drain_result W)
  | 0, _ => none
  | fuel + 1, w =>
    let state : file_state_t := ⟨block, 0⟩
    let r := virtio_queue_handler w state
    if r.1 = MX_ERR_NEXT then
      (file_block_device virtio_queue_handler block fuel r.2).map
        fun d => { d with contexts := state :: d.contexts }
    else some ⟨r.1, r.2, [state]⟩

/-- The function `block_queue_notify`, the `queue_notify` operation of the block device. -/
def block_queue_notify {W : Type} (virtio_queue_handler : virtio_queue_handler_t W)
    (device : virtio_device_ref) (queue_sel : Nat) (fuel : Nat) (w : W) :
    Option (drain_result W) :=
  if queue_sel ≠ 0 then some ⟨MX_ERR_INVALID_ARGS, w, []⟩
  else file_block_device virtio_queue_handler (virtio_device_to_block device) fuel w

/-- Modelled from the spec: `virtio_blk_config_t` of `virtio/block.h`, "a
little-endian struct `{ capacity: u64 (in 512-byte sectors), block_size: u32 }`"
with its other fields, laid out as in VIRTIO Version 1.0 (packed: capacity,
size_max, seg_max, geometry, blk_size). -/
structure virtio_blk_config_t where
  capacity : Nat
  size_max : Nat
  seg_max : Nat
  cylinders : Nat
  heads : Nat
  sectors : Nat
  blk_size : Nat
  deriving DecidableEq, Repr

/-- The `width` bytes of the little-endian representation of `n`. -/
def le_bytes (n width : Nat) : List Nat :=
  (List.range width).map fun i => n / 256 ^ i % 256

/-- The number a list of bytes represents in little-endian order. -/
def le_value : List Nat → Nat
  | [] => 0
  | b :: bs => b + 256 * le_value bs

/-- The bytes of a `virtio_blk_config_t` in memory, `(uint8_t*)&config`. -/
def virtio_blk_config_bytes (config : virtio_blk_config_t) : List Nat :=
  le_bytes config.capacity 8 ++ le_bytes config.size_max 4 ++ le_bytes config.seg_max 4 ++
    le_bytes config.cylinders 2 ++ le_bytes config.heads 1 ++ le_bytes config.sectors 1 ++
    le_bytes config.blk_size 4

/-- The fields of `mx_vcpu_io_t` that `block_read` stores to. -/
structure mx_vcpu_io_t where
  access_size : Nat
  u8 : Nat
  deriving DecidableEq, Repr

/-- The function `block_read`, the `read` operation of the block device. -/
def block_read (device : virtio_device_ref) (port : Nat) (vcpu_io : mx_vcpu_io_t) :
    Except Fault (mx_status_t × mx_vcpu_io_t) :=
  let block := virtio_device_to_block device
  let config : virtio_blk_config_t := ⟨0, 0, 0, 0, 0, 0, 0⟩
  let config := { config with capacity := (block.size / SECTOR_SIZE) % 2 ^ 64 }
  let config := { config with blk_size := SECTOR_SIZE }
  let buf := virtio_blk_config_bytes config
  match buf[port]? with
  | none => .error .out_of_bounds
  | some b => .ok (MX_OK, { vcpu_io with access_size := 1, u8 := b })

/-- The function `block_write`, the `write` operation of the block device: no device fields
are writable. -/
def block_write (_device : virtio_device_ref) (_port : Nat) : mx_status_t :=
  MX_ERR_NOT_SUPPORTED

/-- Modelled from the spec: the backing store, "an ordinary host file opened
read-write or falling back to read-only", open under the descriptor `fd`:
its bytes, its file position and whether it was opened read-write. -/
structure regular_file where
  fd : Int
  data : List Nat
  pos : Nat
  writable : Bool
  deriving DecidableEq, Repr

/-- Modelled from the spec: the host calls `lseek`/`read`/`write`/`fsync` on the
backing store, "byte-exact pass-through": a seek to a non-negative offset
succeeds and sets the position, a read transfers the bytes from the position up
to the end of the file, a write replaces or appends bytes at the position (the
gap after a seek past the end reads as zeros); a call on another descriptor, a
seek to a negative offset and a write to a file opened read-only fail with
`-1`. -/
def regular_file_host : host_t regular_file where
  lseek f fd off :=
    if fd ≠ f.fd ∨ off < 0 then (-1, f) else (off, { f with pos := off.toNat })
  read f fd buf len :=
    if fd ≠ f.fd then (-1, buf, f)
    else
      let chunk := (f.data.drop f.pos).take len
      (chunk.length, chunk ++ buf.drop chunk.length, { f with pos := f.pos + chunk.length })
  write f fd buf len :=
    if fd ≠ f.fd ∨ f.writable = false then (-1, f)
    else
      let chunk := buf.take len
      let old := f.data ++ List.replicate (f.pos - f.data.length) 0
      let data := old.take f.pos ++ chunk ++ old.drop (f.pos + chunk.length)
      (chunk.length, { f with data := data, pos := f.pos + chunk.length })
  fsync f fd := if fd ≠ f.fd then (-1, f) else (0, f)

/-! ## Drain loops and initialisation (`block.c`) -/

/-- The world after the first `i` calls of the Virtqueue Processor made by
`file_block_device`, each started with the context `{ block, 0 }`. -/
def handler_world {W : Type} (virtio_queue_handler : virtio_queue_handler_t W)
    (block : block_t) : Nat → W → W
  | 0, w => w
  | i + 1, w => handler_world virtio_queue_handler block i (virtio_queue_handler w ⟨block, 0⟩).2

/-- The status returned by call number `i + 1` of the Virtqueue Processor in
`file_block_device`: the sequence of statuses of successive calls. -/
def handler_status {W : Type} (virtio_queue_handler : virtio_queue_handler_t W)
    (block : block_t) (i : Nat) (w : W) : mx_status_t :=
  (virtio_queue_handler (handler_world virtio_queue_handler block i w) ⟨block, 0⟩).1

/-- Modelled from the spec: the Virtqueue Processor `virtio_queue_handler`
applied to the queue of the block, to the callback `null_req` and to the context
`NULL`, as a transition on the world `W` (queue and guest memory) that returns
a status; any behaviour of the processor is an instance. -/
abbrev virtio_queue_handler_null_t (W : Type) := W → mx_status_t × W

/-- Result of a queue drain by the null backend: the returned status, the world
afterwards and the number of calls of the Virtqueue Processor. -/
structure null_drain_result (W : Type) where
  status : mx_status_t
  world : W
  calls : Nat

/-- The function `null_block_device`: the do-while loop around
`virtio_queue_handler` with the callback `null_req`; `fuel` bounds the number of
iterations in the embedding, and `none` means that the bound was reached. -/
def null_block_device {W : Type} (virtio_queue_handler : virtio_queue_handler_null_t W) :
    Nat → W → Option (null_drain_result W)
  | 0, _ => none
  | fuel + 1, w =>
    let r := virtio_queue_handler w
    if r.1 = MX_ERR_NEXT then
      (null_block_device virtio_queue_handler fuel r.2).map
        fun d => { d with calls := d.calls + 1 }
    else some ⟨r.1, r.2, 1⟩

/-- The world after the first `i` calls of the Virtqueue Processor made by
`null_block_device`. -/
def null_handler_world {W : Type} (virtio_queue_handler : virtio_queue_handler_null_t W) :
    Nat → W → W
  | 0, w => w
  | i + 1, w => null_handler_world virtio_queue_handler i (virtio_queue_handler w).2

/-- The status returned by call number `i + 1` of the Virtqueue Processor in
`null_block_device`. -/
def null_handler_status {W : Type} (virtio_queue_handler : virtio_queue_handler_null_t W)
    (i : Nat) (w : W) : mx_status_t :=
  (virtio_queue_handler (null_handler_world virtio_queue_handler i w)).1

/- Block configuration constants. -/
def QUEUE_SIZE : Nat := 128

/- Interrupt vectors. -/
def X86_INT_BLOCK : Nat := 33

/-- The function `block_null_init`: the block is zeroed, then the interrupt
vector and the number of queues of the virtio device are set (the pointer
fields and the queue are not part of `block_t` in the embedding). -/
def block_null_init : block_t :=
  let block : block_t := ⟨0, 0, ⟨0, 0, 0⟩⟩
  let block := { block with virtio_device := { block.virtio_device with irq_vector := X86_INT_BLOCK } }
  { block with virtio_device := { block.virtio_device with num_queues := 1 } }

/-- The end of `block_init`, from the comment "Read file size" on: `lseek_end fd`
is the result of `lseek(fd, 0, SEEK_END)`. -/
def block_init_size (lseek_end : Int → Int) (block : block_t) : mx_status_t × block_t :=
  let ret : Int := lseek_end block.fd
  if ret < 0 then ( MX_ERR_IO, block)
  else (MX_OK, { block with size := ret.toNat })

/-- The function `block_init`, with the host calls given by their outcomes:
`open_rdwr` is the result of `open(block_path, O_RDWR)`, `open_rdonly` the result
of `open(block_path, O_RDONLY)` and `lseek_end fd` the result of
`lseek(fd, 0, SEEK_END)`. It returns the status and the block. -/
def block_init (open_rdwr open_rdonly : Int) (lseek_end : Int → Int) : mx_status_t × block_t :=
  let block : block_t := block_null_init
  let block : block_t := { block with fd := open_rdwr }
  if block.fd < (0 : Int) then
    let block : block_t := { block with fd := open_rdonly }
    if block.fd < (0 : Int) then ( MX_ERR_IO, block)
    else
      let features := block.virtio_device.features ||| VIRTIO_BLK_F_RO
      block_init_size lseek_end { block with virtio_device := { block.virtio_device with features := features } }
  else block_init_size lseek_end block

/-! ## The block behind the operations

The operations above return what they compute. The definitions of this section
return in addition the block they leave behind, so that a property of the block
before and after an operation can be stated. The Virtqueue Processor appears
here with its callback: it reaches the context only by handing it to the
callback. -/

/-- The relation between the block before and the block after an operation:
the size is the same, and the read-only feature bit is set after if it was set
before. -/
def size_and_ro_kept (before after : block_t) : Prop :=
  after.size = before.size ∧
    (before.virtio_device.features &&& VIRTIO_BLK_F_RO ≠ 0 →
      after.virtio_device.features &&& VIRTIO_BLK_F_RO ≠ 0)

/-- The function `block_read` with the block behind `device->impl` afterwards:
the source stores to the local `config` and through `vcpu_io` only, there is no
store through `block` or `device`. -/
def block_read_mem (device : virtio_device_ref) (port : Nat) (vcpu_io : mx_vcpu_io_t) :
    Except Fault (mx_status_t × mx_vcpu_io_t × block_t) :=
  match block_read device port vcpu_io with
  | .error e => .error e
  | .ok r => .ok (r.1, r.2, virtio_device_to_block device)

/-- The function `block_write` with the block behind `device->impl` afterwards:
the body is the return statement alone. -/
def block_write_mem (device : virtio_device_ref) (port : Nat) : mx_status_t × block_t :=
  (block_write device port, virtio_device_to_block device)

/-- The type `virtio_req_fn_t` of the callback of the Virtqueue Processor,
`mx_status_t (*)(void* ctx, void* req, void* addr, uint32_t len)`, over a context
of type `C` and a host state `σ`: it returns its status, the context, the buffer
and the host state afterwards. -/
abbrev virtio_req_fn_t (C σ : Type) :=
  C → σ → virtio_blk_req_t → List Nat → Nat → mx_status_t × C × List Nat × σ

/-- The function `file_req` as a callback: the context is the `file_state_t`. -/
def file_req_fn {σ : Type} (H : host_t σ) : virtio_req_fn_t file_state_t σ :=
  fun ctx h blk_req addr len =>
    let r := file_req H h ctx blk_req addr len
    (r.status, r.state, r.addr, r.host)

/-- The function `null_req` as a callback: it does not use `ctx`, whatever the
context is it stays as it was, and there is no host call. -/
def null_req_fn {C σ : Type} : virtio_req_fn_t C σ :=
  fun ctx h blk_req addr len =>
    let r := null_req blk_req addr len
    (r.status, ctx, r.addr, h)

/-- Modelled from the spec: one call of the Virtqueue Processor as its callback
sees it. The processor "walks a guest-described descriptor chain", "yielding
(request-header, buffer, length) tuples to a caller-supplied handler": it either
returns a status and leaves the world `w` (queue and guest memory), or hands a
request header, a buffer and a length to the callback and goes on according to
the status the callback returned and the buffer it left. -/
inductive vq_call (W : Type) where
  | ret (status : mx_status_t) (w : W)
  | req (blk_req : virtio_blk_req_t) (addr : List Nat) (len : Nat)
      (next : mx_status_t → List Nat → vq_call W)

/-- Result of one call of the Virtqueue Processor: the returned status, the
world, the context of the callback and the host state afterwards. -/
structure vq_result (C σ W : Type) where
  status : mx_status_t
  world : W
  ctx : C
  host : σ

/-- Modelled from the spec: `virtio_queue_handler(queue, hdr_size, req_fn, ctx)`
of `virtio/virtio.h`. The context `ctx` is opaque to the processor: it is handed
to every call of `req_fn` and is otherwise left alone. -/
def virtio_queue_handler {C σ W : Type} (req_fn : virtio_req_fn_t C σ) :
    vq_call W → C → σ → vq_result C σ W
  | .ret status w, ctx, h => ⟨status, w, ctx, h⟩
  | .req blk_req addr len next, ctx, h =>
    let r := req_fn ctx h blk_req addr len
    virtio_queue_handler req_fn (next r.1 r.2.2.1) r.2.1 r.2.2.2

/-- Result of a queue drain with the block: the returned status, the block, the
world and the host state afterwards. -/
structure drain_mem_result (σ W : Type) where
  status : mx_status_t
  block : block_t
  world : W
  host : σ

/-- The function `file_block_device` with the block afterwards. `processor w` is
the call of the Virtqueue Processor on the world `w`. Every iteration builds the
context `{ block, 0 }` from the block as it is then; the block afterwards is the
one behind the pointer in the context when the call returns. `fuel` bounds the
number of iterations in the embedding. -/
def file_block_device_mem {σ W : Type} (H : host_t σ) (processor : W → vq_call W) :
    Nat → block_t → W → σ → Option (drain_mem_result σ W)
  | 0, _, _, _ => none
  | fuel + 1, block, w, h =>
    let state : file_state_t := ⟨block, 0⟩
    let r := virtio_queue_handler (file_req_fn H) (processor w) state h
    if r.status = MX_ERR_NEXT then
      file_block_device_mem H processor fuel r.ctx.block r.world r.host
    else some ⟨r.status, r.ctx.block, r.world, r.host⟩

/-- The function `null_block_device` with the block afterwards. The context of
the callback is `NULL` (the unit value): neither the processor, which gets the
queue, nor `null_req` gets a pointer to the rest of the block. -/
def null_block_device_mem {σ W : Type} (processor : W → vq_call W) :
    Nat → block_t → W → σ → Option (drain_mem_result σ W)
  | 0, _, _, _ => none
  | fuel + 1, block, w, h =>
    let r := virtio_queue_handler (C := Unit) null_req_fn (processor w) () h
    if r.status = MX_ERR_NEXT then
      null_block_device_mem processor fuel block r.world r.host
    else some ⟨r.status, block, r.world, r.host⟩

/-- The function `block_queue_notify` with the block afterwards. -/
def block_queue_notify_mem {σ W : Type} (H : host_t σ) (processor : W → vq_call W)
    (device : virtio_device_ref) (queue_sel : Nat) (fuel : Nat) (w : W) (h : σ) :
    Option (drain_mem_result σ W) :=
  if queue_sel ≠ 0 then some ⟨MX_ERR_INVALID_ARGS, virtio_device_to_block device, w, h⟩
  else file_block_device_mem H processor fuel (virtio_device_to_block device) w h

/-- The Virtqueue Processor with the callback `file_req` as a transition on the
world and the host: the form in which `file_block_device` takes it. -/
def file_processor {σ W : Type} (H : host_t σ) (processor : W → vq_call W) :
    virtio_queue_handler_t (W × σ) :=
  fun wh ctx =>
    let r := virtio_queue_handler (file_req_fn H) (processor wh.1) ctx wh.2
    (r.status, (r.world, r.host))

/-- The Virtqueue Processor with the callback `null_req` as a transition on the
world and the host: the form in which `null_block_device` takes it. -/
def null_processor {σ W : Type} (processor : W → vq_call W) :
    virtio_queue_handler_null_t (W × σ) :=
  fun wh =>
    let r := virtio_queue_handler (C := Unit) null_req_fn (processor wh.1) () wh.2
    (r.status, (r.world, r.host))

/-! ## Theorems: IO APIC -/

theorem redirect_index_lt (N s : Nat) (h1 : FIRST_REDIRECT_OFFSET ≤ s)
    (h2 : s ≤ LAST_REDIRECT_OFFSET N) :
    (s + 2 ^ 32 - FIRST_REDIRECT_OFFSET) % 2 ^ 32 = s - FIRST_REDIRECT_OFFSET ∧
      s - FIRST_REDIRECT_OFFSET < N := by
  simp only [LAST_REDIRECT_OFFSET, FIRST_REDIRECT_OFFSET] at *
  omega

theorem handler_select_write (N base : Nat) (rej : mx_status_t) (io : io_apic_t) (v : Nat) :
    io_apic_handler N base rej io (select_write base v).1 (select_write base v).2 =
      .ok ⟨if v % 2 ^ 32 > UINT8_MAX then MX_ERR_INVALID_ARGS else MX_OK,
           { io with select := v % 2 ^ 32 }, none⟩ := by
  simp [io_apic_handler, select_write, inst_write32, IO_APIC_IOREGSEL]

theorem handler_window_redirect (N base : Nat) (rej : mx_status_t) (io : io_apic_t)
    (inst : instruction_t) (hlen : io.redirect.length = N)
    (h1 : FIRST_REDIRECT_OFFSET ≤ io.select) (h2 : io.select ≤ LAST_REDIRECT_OFFSET N)
    (i : Nat) (hi : i = io.select - FIRST_REDIRECT_OFFSET)
    (r : inst_result) (hr : r = inst_rw32 rej inst (io.redirect.getD i 0)) :
    io_apic_handler N base rej io ⟨base + IO_APIC_IOWIN⟩ inst =
      .ok ⟨r.status, { io with redirect := io.redirect.set i r.value }, r.reg⟩ := by
  obtain ⟨hidx, hlt⟩ := redirect_index_lt N io.select h1 h2
  have hne0 : io.select ≠ IO_APIC_REGISTER_ID := by
    simp only [FIRST_REDIRECT_OFFSET, IO_APIC_REGISTER_ID] at *; omega
  have hne1 : io.select ≠ IO_APIC_REGISTER_VER := by
    simp only [FIRST_REDIRECT_OFFSET, IO_APIC_REGISTER_VER] at *; omega
  have hne2 : io.select ≠ IO_APIC_REGISTER_ARBITRATION := by
    simp only [FIRST_REDIRECT_OFFSET, IO_APIC_REGISTER_ARBITRATION] at *; omega
  have hget : io.redirect[i]? = some (io.redirect.getD i 0) := by
    rw [List.getD_eq_getElem?_getD, List.getElem?_eq_getElem (by omega)]
    rfl
  subst hr
  unfold io_apic_handler
  simp only [hidx, ← hi, hget, hne0, hne1, hne2, h1, h2]
  simp [IO_APIC_IOWIN, IO_APIC_IOREGSEL]

theorem list_set_getD_self (l : List Nat) (i : Nat) : l.set i (l[i]?.getD 0) = l := by
  apply List.ext_getElem (by simp)
  intro n h1 h2
  by_cases hn : i = n
  · subst hn
    simp [List.getElem?_eq_getElem h2]
  · simp [List.getElem_set_ne hn]

theorem handler_window_read_redirect (N base : Nat) (rej : mx_status_t) (io : io_apic_t)
    (hlen : io.redirect.length = N)
    (h1 : FIRST_REDIRECT_OFFSET ≤ io.select) (h2 : io.select ≤ LAST_REDIRECT_OFFSET N) :
    io_apic_handler N base rej io (window_read base).1 (window_read base).2 =
      .ok ⟨MX_OK, io,
        some (io.redirect.getD (io.select - FIRST_REDIRECT_OFFSET) 0 % 2 ^ 32)⟩ := by
  rw [window_read, handler_window_redirect N base rej io (.read 4) hlen h1 h2 _ rfl _ rfl]
  simp [inst_rw32, list_set_getD_self]

theorem handler_window_write_redirect (N base : Nat) (rej : mx_status_t) (io : io_apic_t)
    (v : Nat) (hlen : io.redirect.length = N)
    (h1 : FIRST_REDIRECT_OFFSET ≤ io.select) (h2 : io.select ≤ LAST_REDIRECT_OFFSET N) :
    io_apic_handler N base rej io (window_write base v).1 (window_write base v).2 =
      .ok ⟨MX_OK,
        { io with redirect := io.redirect.set (io.select - FIRST_REDIRECT_OFFSET) (v % 2 ^ 32) },
        none⟩ := by
  rw [window_write, handler_window_redirect N base rej io (.write 4 v) hlen h1 h2 _ rfl _ rfl]
  simp [inst_rw32]

/-- C1: for every IO APIC state with `N` redirect slots, every select value `s`
in `[FIRST_REDIRECT_OFFSET, LAST_REDIRECT_OFFSET]` and every 32-bit value `v`:
writing `s` to the select register and `v` to the window register succeeds, and
a following 32-bit read of the window register returns `v` with status OK
(this covers the even and the odd slot of every entry); and for every other
slot `t` of the table, the value read back from `t` after that write is the
value read back from `t` without it. -/
theorem C1_redirect_write_read (N base : Nat) (rej : mx_status_t) (io : io_apic_t)
    (s v : Nat) (hlen : io.redirect.length = N)
    (hs1 : FIRST_REDIRECT_OFFSET ≤ s) (hs2 : s ≤ LAST_REDIRECT_OFFSET N) (hv : v < 2 ^ 32) :
    (∃ io2,
      io_apic_run N base rej io [select_write base s, window_write base v]
        = .ok ⟨MX_OK, io2, none⟩ ∧
      io_apic_run N base rej io [select_write base s, window_write base v, window_read base]
        = .ok ⟨MX_OK, io2, some v⟩) ∧
    (∀ t, FIRST_REDIRECT_OFFSET ≤ t → t ≤ LAST_REDIRECT_OFFSET N → t ≠ s →
      ∃ ioA ioB x,
        io_apic_run N base rej io
          [select_write base s, window_write base v, select_write base t, window_read base]
          = .ok ⟨MX_OK, ioA, some x⟩ ∧
        io_apic_run N base rej io [select_write base t, window_read base]
          = .ok ⟨MX_OK, ioB, some x⟩) := by
  have hs32 : s % 2 ^ 32 = s := by
    simp only [LAST_REDIRECT_OFFSET] at hs2; omega
  obtain ⟨_, hslt⟩ := redirect_index_lt N s hs1 hs2
  have hw := handler_window_write_redirect N base rej ⟨s, io.id, io.redirect⟩ v hlen hs1 hs2
  simp only [Nat.mod_eq_of_lt hv] at hw
  constructor
  · refine ⟨⟨s, io.id, io.redirect.set (s - FIRST_REDIRECT_OFFSET) v⟩, ?_, ?_⟩
    · simp only [io_apic_run, handler_select_write, hs32, hw]
    · have hr := handler_window_read_redirect N base rej
        ⟨s, io.id, io.redirect.set (s - FIRST_REDIRECT_OFFSET) v⟩ (by simp [hlen]) hs1 hs2
      simp only [io_apic_run, handler_select_write, hs32, hw, hr]
      simp [List.getD_eq_getElem?_getD, hlen, hslt]
      omega
  · intro t ht1 ht2 hts
    have ht32 : t % 2 ^ 32 = t := by
      simp only [LAST_REDIRECT_OFFSET] at ht2; omega
    have hne : s - FIRST_REDIRECT_OFFSET ≠ t - FIRST_REDIRECT_OFFSET := by
      simp only [FIRST_REDIRECT_OFFSET] at *; omega
    refine ⟨⟨t, io.id, io.redirect.set (s - FIRST_REDIRECT_OFFSET) v⟩, ⟨t, io.id, io.redirect⟩,
            io.redirect.getD (t - FIRST_REDIRECT_OFFSET) 0 % 2 ^ 32, ?_, ?_⟩
    · have hr := handler_window_read_redirect N base rej
        ⟨t, io.id, io.redirect.set (s - FIRST_REDIRECT_OFFSET) v⟩ (by simp [hlen]) ht1 ht2
      simp only [io_apic_run, handler_select_write, hs32, ht32, hw, hr]
      simp [List.getD_eq_getElem?_getD, List.getElem?_set_ne hne]
    · have hr := handler_window_read_redirect N base rej ⟨t, io.id, io.redirect⟩ hlen ht1 ht2
      simp only [io_apic_run, handler_select_write, ht32, hr]

/-- Witness of C1: the zero-initialised IO APIC with 128 redirect slots, the
high half of entry 0 (select 0x11) and the value 0xdeadbeef; the other slot is
the low half of entry 0 (select 0x10). -/
theorem C1_redirect_write_read_witness :
    (∃ io2,
      io_apic_run 128 0xfec00000 MX_ERR_NOT_SUPPORTED (io_apic_init 128)
        [select_write 0xfec00000 0x11, window_write 0xfec00000 0xdeadbeef]
        = .ok ⟨MX_OK, io2, none⟩ ∧
      io_apic_run 128 0xfec00000 MX_ERR_NOT_SUPPORTED (io_apic_init 128)
        [select_write 0xfec00000 0x11, window_write 0xfec00000 0xdeadbeef,
          window_read 0xfec00000]
        = .ok ⟨MX_OK, io2, some 0xdeadbeef⟩) ∧
    (∃ ioA ioB x,
      io_apic_run 128 0xfec00000 MX_ERR_NOT_SUPPORTED (io_apic_init 128)
        [select_write 0xfec00000 0x11, window_write 0xfec00000 0xdeadbeef,
          select_write 0xfec00000 0x10, window_read 0xfec00000]
        = .ok ⟨MX_OK, ioA, some x⟩ ∧
      io_apic_run 128 0xfec00000 MX_ERR_NOT_SUPPORTED (io_apic_init 128)
        [select_write 0xfec00000 0x10, window_read 0xfec00000]
        = .ok ⟨MX_OK, ioB, some x⟩) :=
  have h := C1_redirect_write_read 128 0xfec00000 MX_ERR_NOT_SUPPORTED (io_apic_init 128)
    0x11 0xdeadbeef (by simp [io_apic_init]) (by decide) (by decide) (by decide)
  ⟨h.1, h.2 0x10 (by decide) (by decide) (by decide)⟩

theorem handler_window_unhandled (N base : Nat) (rej : mx_status_t) (io : io_apic_t)
    (inst : instruction_t) (h1 : UINT8_MAX < io.select) (h2 : LAST_REDIRECT_OFFSET N < io.select) :
    io_apic_handler N base rej io ⟨base + IO_APIC_IOWIN⟩ inst =
      .ok ⟨MX_ERR_NOT_SUPPORTED, io, none⟩ := by
  have hne0 : io.select ≠ IO_APIC_REGISTER_ID := by
    simp only [UINT8_MAX, IO_APIC_REGISTER_ID] at *; omega
  have hne1 : io.select ≠ IO_APIC_REGISTER_VER := by
    simp only [UINT8_MAX, IO_APIC_REGISTER_VER] at *; omega
  have hne2 : io.select ≠ IO_APIC_REGISTER_ARBITRATION := by
    simp only [UINT8_MAX, IO_APIC_REGISTER_ARBITRATION] at *; omega
  have hnr : ¬ (FIRST_REDIRECT_OFFSET ≤ io.select ∧ io.select ≤ LAST_REDIRECT_OFFSET N) := by
    omega
  unfold io_apic_handler
  simp only [hne0, hne1, hne2, hnr]
  simp [IO_APIC_IOWIN, IO_APIC_IOREGSEL]

theorem version_value_eq (N : Nat) (h1 : 2 ≤ N) (h2 : N / 2 - 1 < 2 ^ 16) :
    IO_APIC_VER_VALUE N = ((N / 2 - 1) <<< 16) ||| 0x11 ∧ IO_APIC_VER_VALUE N < 2 ^ 32 := by
  have e1 : (N / 2 + 2 ^ 32 - 1) % 2 ^ 32 = N / 2 - 1 := by omega
  have e2 : ((N / 2 - 1) <<< 16) % 2 ^ 32 = (N / 2 - 1) <<< 16 := by
    rw [Nat.shiftLeft_eq]; omega
  have e3 : (N / 2 - 1) <<< 16 < 2 ^ 32 := by
    rw [Nat.shiftLeft_eq]; omega
  unfold IO_APIC_VER_VALUE IO_APIC_VERSION
  rw [e1, e2]
  exact ⟨rfl, Nat.or_lt_two_pow e3 (by norm_num)⟩

/-- C2 (amended): for every IO APIC state and every 32-bit value `v > 0xFF`, a
write of `v` to the select register returns invalid-argument and leaves `v` in
`select` (the register is not reset; `id` and the redirect table are
unchanged). A following window access is dispatched on `v`: when `v` lies above
`LAST_REDIRECT_OFFSET` it returns not-supported, delivers no value and changes
nothing, whatever register was selected before the rejected write. -/
theorem C2_select_out_of_range (N base : Nat) (rej : mx_status_t) (io : io_apic_t) (v : Nat)
    (hv1 : UINT8_MAX < v) (hv2 : v < 2 ^ 32) :
    io_apic_handler N base rej io (select_write base v).1 (select_write base v).2
      = .ok ⟨MX_ERR_INVALID_ARGS, ⟨v, io.id, io.redirect⟩, none⟩ ∧
    (LAST_REDIRECT_OFFSET N < v → ∀ inst,
      io_apic_handler N base rej ⟨v, io.id, io.redirect⟩ ⟨base + IO_APIC_IOWIN⟩ inst
        = .ok ⟨MX_ERR_NOT_SUPPORTED, ⟨v, io.id, io.redirect⟩, none⟩) := by
  constructor
  · rw [handler_select_write, Nat.mod_eq_of_lt hv2, if_pos hv1]
  · intro hlast inst
    exact handler_window_unhandled N base rej ⟨v, io.id, io.redirect⟩ inst hv1 hlast

/-- Witness of C2 (amended): 128 redirect slots, VERSION selected, the value
0x100 written to the select register. -/
theorem C2_select_out_of_range_witness :
    io_apic_handler 128 0xfec00000 MX_ERR_NOT_SUPPORTED ⟨1, 0, List.replicate 128 0⟩
        (select_write 0xfec00000 0x100).1 (select_write 0xfec00000 0x100).2
      = .ok ⟨MX_ERR_INVALID_ARGS, ⟨0x100, 0, List.replicate 128 0⟩, none⟩ ∧
    io_apic_handler 128 0xfec00000 MX_ERR_NOT_SUPPORTED ⟨0x100, 0, List.replicate 128 0⟩
        ⟨0xfec00000 + IO_APIC_IOWIN⟩ (.read 4)
      = .ok ⟨MX_ERR_NOT_SUPPORTED, ⟨0x100, 0, List.replicate 128 0⟩, none⟩ :=
  have h := C2_select_out_of_range 128 0xfec00000 MX_ERR_NOT_SUPPORTED
    ⟨1, 0, List.replicate 128 0⟩ 0x100 (by decide) (by decide)
  ⟨h.1, h.2 (by decide) (.read 4)⟩

/-- Counterexample to C2 as stated: with 128 redirect slots and VERSION selected,
a window read returns the version value 0x3f0011; after the rejected write of
0x100 to the select register the same window read returns not-supported and no
value. -/
theorem C2_counterexample :
    io_apic_run 128 0xfec00000 MX_ERR_NOT_SUPPORTED ⟨1, 0, List.replicate 128 0⟩
        [window_read 0xfec00000]
      = .ok ⟨MX_OK, ⟨1, 0, List.replicate 128 0⟩, some 0x3f0011⟩ ∧
    io_apic_run 128 0xfec00000 MX_ERR_NOT_SUPPORTED ⟨1, 0, List.replicate 128 0⟩
        [select_write 0xfec00000 0x100]
      = .ok ⟨MX_ERR_INVALID_ARGS, ⟨0x100, 0, List.replicate 128 0⟩, none⟩ ∧
    io_apic_run 128 0xfec00000 MX_ERR_NOT_SUPPORTED ⟨1, 0, List.replicate 128 0⟩
        [select_write 0xfec00000 0x100, window_read 0xfec00000]
      = .ok ⟨MX_ERR_NOT_SUPPORTED, ⟨0x100, 0, List.replicate 128 0⟩, none⟩ := by
  refine ⟨?_, ?_, ?_⟩
  · simp [io_apic_run, io_apic_handler, window_read, inst_read32, IO_APIC_IOWIN,
      IO_APIC_IOREGSEL, IO_APIC_REGISTER_ID, IO_APIC_REGISTER_VER, IO_APIC_VER_VALUE,
      IO_APIC_VERSION]
  · simp [io_apic_run, handler_select_write, UINT8_MAX]
  · simp only [io_apic_run, handler_select_write]
    exact handler_window_unhandled 128 0xfec00000 MX_ERR_NOT_SUPPORTED _ (.read 4)
      (by decide) (by decide)

/-- C6: for every IO APIC state in which VERSION is selected (so in particular
for every such state reached from the zero-initialised one by any sequence of
accesses, whatever was written to the redirect slots and the ID register), a
32-bit read of the window register returns status OK and the value
`((N/2 - 1) << 16) | 0x11`, and leaves the state unchanged; `N` is any number of
redirect slots for which that value fits the 8-bit field of the register. -/
theorem C6_version_read (N base : Nat) (rej : mx_status_t) (io : io_apic_t)
    (hN1 : 2 ≤ N) (hN2 : N / 2 - 1 < 2 ^ 8) (hsel : io.select = IO_APIC_REGISTER_VER) :
    io_apic_handler N base rej io (window_read base).1 (window_read base).2
      = .ok ⟨MX_OK, io, some (((N / 2 - 1) <<< 16) ||| 0x11)⟩ := by
  obtain ⟨hval, hlt⟩ := version_value_eq N hN1 (by omega)
  unfold io_apic_handler
  simp only [hsel]
  rw [hval] at hlt
  simp [window_read, inst_read32, IO_APIC_IOWIN, IO_APIC_IOREGSEL, IO_APIC_REGISTER_ID,
    IO_APIC_REGISTER_VER, hval]
  omega

/-- Witness of C6: 128 redirect slots, after a guest has programmed a redirect
slot and the ID register; the version read is 0x3f0011. -/
theorem C6_version_read_witness :
    io_apic_handler 128 0xfec00000 MX_ERR_NOT_SUPPORTED
        ⟨1, 5, (List.replicate 128 0).set 3 0x10020⟩
        (window_read 0xfec00000).1 (window_read 0xfec00000).2
      = .ok ⟨MX_OK, ⟨1, 5, (List.replicate 128 0).set 3 0x10020⟩,
          some (((128 / 2 - 1) <<< 16) ||| 0x11)⟩ :=
  C6_version_read 128 0xfec00000 MX_ERR_NOT_SUPPORTED
    ⟨1, 5, (List.replicate 128 0).set 3 0x10020⟩ (by decide) (by decide) rfl

/-! ## Theorems: block device -/

theorem file_req_not_flush {σ : Type} (H : host_t σ) (h : σ) (state : file_state_t)
    (blk_req : virtio_blk_req_t) (addr : List Nat) (len : Nat)
    (ht : blk_req.type ≠ VIRTIO_BLK_T_FLUSH) :
    file_req H h state blk_req addr len =
      if (H.lseek h state.block.fd (file_req_offset state blk_req)).1 < 0 then
        ⟨ MX_ERR_IO, file_req_advance state len, addr,
          (H.lseek h state.block.fd (file_req_offset state blk_req)).2,
          [.lseek state.block.fd (file_req_offset state blk_req)]⟩
      else
        file_req_switch H (H.lseek h state.block.fd (file_req_offset state blk_req)).2
          [.lseek state.block.fd (file_req_offset state blk_req)]
          (file_req_advance state len) blk_req addr len := by
  simp [file_req, ht]

/-- C5: for every flush request whose sector field is non-zero, `file_req`
returns the data-integrity error without any host call (the call list is empty,
the host state, the cumulative offset and the buffer are unchanged), and
`null_req` returns the data-integrity error as well, for every buffer, length
and device state. -/
theorem C5_flush_nonzero_sector {σ : Type} (H : host_t σ) (h : σ) (state : file_state_t)
    (blk_req : virtio_blk_req_t) (addr : List Nat) (len : Nat)
    (ht : blk_req.type = VIRTIO_BLK_T_FLUSH) (hs : blk_req.sector ≠ 0) :
    file_req H h state blk_req addr len = ⟨MX_ERR_IO_DATA_INTEGRITY, state, addr, h, []⟩ ∧
    null_req blk_req addr len = ⟨MX_ERR_IO_DATA_INTEGRITY, addr⟩ := by
  constructor
  · simp [file_req, file_req_switch, ht, hs, VIRTIO_BLK_T_FLUSH, VIRTIO_BLK_T_IN,
      VIRTIO_BLK_T_OUT]
  · simp [null_req, ht, hs, VIRTIO_BLK_T_FLUSH, VIRTIO_BLK_T_IN, VIRTIO_BLK_T_OUT]

/-- Witness of C5: a flush request with sector 7 on a 3-byte backing file. -/
theorem C5_flush_nonzero_sector_witness :
    file_req regular_file_host ⟨3, [1, 2, 3], 0, true⟩ ⟨⟨3, 3, ⟨0, 33, 1⟩⟩, 0⟩
        ⟨VIRTIO_BLK_T_FLUSH, 0, 7⟩ [9, 9] 2
      = ⟨MX_ERR_IO_DATA_INTEGRITY, ⟨⟨3, 3, ⟨0, 33, 1⟩⟩, 0⟩, [9, 9], ⟨3, [1, 2, 3], 0, true⟩, []⟩ ∧
    null_req ⟨VIRTIO_BLK_T_FLUSH, 0, 7⟩ [9, 9] 2 = ⟨MX_ERR_IO_DATA_INTEGRITY, [9, 9]⟩ :=
  C5_flush_nonzero_sector regular_file_host ⟨3, [1, 2, 3], 0, true⟩ ⟨⟨3, 3, ⟨0, 33, 1⟩⟩, 0⟩
    ⟨VIRTIO_BLK_T_FLUSH, 0, 7⟩ [9, 9] 2 rfl (by decide)

/-- C4 (amended): for every block device whose read-only feature bit is set and
every write (OUT) request (every sector, buffer, length, cumulative offset and
host behaviour), `file_req` makes exactly one host call, the seek, and never
calls `write()`: it returns not-supported when the seek succeeds and the I/O
error when the seek fails, and leaves the buffer unchanged; on an ordinary
backing file the content of the file is unchanged. -/
theorem C4_read_only_write {σ : Type} (H : host_t σ) (h : σ) (state : file_state_t)
    (blk_req : virtio_blk_req_t) (addr : List Nat) (len : Nat)
    (ht : blk_req.type = VIRTIO_BLK_T_OUT)
    (hro : state.block.virtio_device.features &&& VIRTIO_BLK_F_RO ≠ 0) :
    file_req H h state blk_req addr len =
      ⟨if (H.lseek h state.block.fd (file_req_offset state blk_req)).1 < 0 then MX_ERR_IO
        else MX_ERR_NOT_SUPPORTED,
       file_req_advance state len, addr,
       (H.lseek h state.block.fd (file_req_offset state blk_req)).2,
       [.lseek state.block.fd (file_req_offset state blk_req)]⟩ ∧
    ∀ f : regular_file,
      (file_req regular_file_host f state blk_req addr len).host.data = f.data := by
  have hnf : blk_req.type ≠ VIRTIO_BLK_T_FLUSH := by rw [ht]; decide
  have key : ∀ {τ : Type} (K : host_t τ) (k : τ), file_req K k state blk_req addr len =
      ⟨if (K.lseek k state.block.fd (file_req_offset state blk_req)).1 < 0 then MX_ERR_IO
        else MX_ERR_NOT_SUPPORTED,
       file_req_advance state len, addr,
       (K.lseek k state.block.fd (file_req_offset state blk_req)).2,
       [.lseek state.block.fd (file_req_offset state blk_req)]⟩ := by
    intro τ K k
    rw [file_req_not_flush K k state blk_req addr len hnf]
    have hro2 : (file_req_advance state len).block.virtio_device.features
        &&& VIRTIO_BLK_F_RO ≠ 0 := hro
    split
    · simp [*]
    · simp [file_req_switch, ht, hro2, VIRTIO_BLK_T_OUT, VIRTIO_BLK_T_IN, *]
  refine ⟨key H h, ?_⟩
  intro f
  rw [key regular_file_host f]
  simp only [regular_file_host]
  split <;> rfl

/-- Witness of C4 (amended): a write of one byte to sector 0 of a 3-byte backing
file that is open read-only, on a device with the read-only feature bit. -/
theorem C4_read_only_write_witness :
    file_req regular_file_host ⟨3, [1, 2, 3], 0, false⟩ ⟨⟨3, 3, ⟨VIRTIO_BLK_F_RO, 33, 1⟩⟩, 0⟩
        ⟨VIRTIO_BLK_T_OUT, 0, 0⟩ [9] 1
      = ⟨MX_ERR_NOT_SUPPORTED, ⟨⟨3, 3, ⟨VIRTIO_BLK_F_RO, 33, 1⟩⟩, 1⟩, [9],
          ⟨3, [1, 2, 3], 0, false⟩, [.lseek 3 0]⟩ ∧
    (file_req regular_file_host ⟨3, [1, 2, 3], 0, false⟩ ⟨⟨3, 3, ⟨VIRTIO_BLK_F_RO, 33, 1⟩⟩, 0⟩
        ⟨VIRTIO_BLK_T_OUT, 0, 0⟩ [9] 1).host.data = [1, 2, 3] :=
  have h := C4_read_only_write regular_file_host ⟨3, [1, 2, 3], 0, false⟩
    ⟨⟨3, 3, ⟨VIRTIO_BLK_F_RO, 33, 1⟩⟩, 0⟩ ⟨VIRTIO_BLK_T_OUT, 0, 0⟩ [9] 1 rfl (by decide)
  ⟨h.1.trans rfl, h.2 ⟨3, [1, 2, 3], 0, false⟩⟩

/-- Counterexample to C4 as stated: on a read-only device, a write request for
sector 2^54 makes `file_req` seek to the offset 2^63, which is negative as an
`off_t`; the seek fails and `file_req` returns the I/O error, not
not-supported. -/
theorem C4_counterexample :
    (⟨VIRTIO_BLK_F_RO, 33, 1⟩ : virtio_device_t).features &&& VIRTIO_BLK_F_RO ≠ 0 ∧
    file_req_offset ⟨⟨3, 3, ⟨VIRTIO_BLK_F_RO, 33, 1⟩⟩, 0⟩ ⟨VIRTIO_BLK_T_OUT, 0, 2 ^ 54⟩
      = -2 ^ 63 ∧
    (file_req regular_file_host ⟨3, [1, 2, 3], 0, false⟩ ⟨⟨3, 3, ⟨VIRTIO_BLK_F_RO, 33, 1⟩⟩, 0⟩
        ⟨VIRTIO_BLK_T_OUT, 0, 2 ^ 54⟩ [9] 1).status = MX_ERR_IO ∧
    (file_req regular_file_host ⟨3, [1, 2, 3], 0, false⟩ ⟨⟨3, 3, ⟨VIRTIO_BLK_F_RO, 33, 1⟩⟩, 0⟩
        ⟨VIRTIO_BLK_T_OUT, 0, 2 ^ 54⟩ [9] 1).status ≠ MX_ERR_NOT_SUPPORTED := by
  decide

/-- C8: for every queue index `q ≠ 0`, every device, every behaviour of the
Virtqueue Processor and every world, `block_queue_notify` returns
invalid-argument without a single call of the processor (no drain: the world,
which holds the queue, the backing file and the device, is unchanged); for
`q = 0` its result is exactly that of `file_block_device` on the block of the
device. -/
theorem C8_queue_notify {W : Type} (vqh : virtio_queue_handler_t W) (device : virtio_device_ref)
    (fuel : Nat) (w : W) :
    (∀ q, q ≠ 0 → block_queue_notify vqh device q fuel w = some ⟨MX_ERR_INVALID_ARGS, w, []⟩) ∧
    block_queue_notify vqh device 0 fuel w =
      file_block_device vqh (virtio_device_to_block device) fuel w := by
  constructor
  · intro q hq
    simp [block_queue_notify, hq]
  · simp [block_queue_notify]

/-- Witness of C8: queue index 1, on a world that counts the calls of the
Virtqueue Processor. -/
theorem C8_queue_notify_witness :
    block_queue_notify (W := Nat) (fun n _ => (MX_OK, n + 1)) ⟨⟨3, 3, ⟨0, 33, 1⟩⟩⟩ 1 5 0
      = some ⟨MX_ERR_INVALID_ARGS, 0, []⟩ :=
  (C8_queue_notify (W := Nat) (fun n _ => (MX_OK, n + 1)) ⟨⟨3, 3, ⟨0, 33, 1⟩⟩⟩ 5 0).1 1
    (by decide)

/-- C9: for every host behaviour, `file_req` returns OK on a read (IN) request,
and on a write (OUT) request on a device without the read-only feature bit, if
and only if the seek succeeds and `read()`/`write()` returns exactly `len`, and
the I/O error in every other case; on a flush request with sector 0 it returns
OK if and only if `fsync` returns 0, whatever `len` is, and the I/O error
otherwise. -/
theorem C9_file_req_status {σ : Type} (H : host_t σ) (h : σ) (state : file_state_t)
    (blk_req : virtio_blk_req_t) (addr : List Nat) (len : Nat) :
    (blk_req.type = VIRTIO_BLK_T_IN →
      (file_req H h state blk_req addr len).status =
        if 0 ≤ (H.lseek h state.block.fd (file_req_offset state blk_req)).1 ∧
            (H.read (H.lseek h state.block.fd (file_req_offset state blk_req)).2
              state.block.fd addr len).1 = (len : Int)
        then MX_OK else MX_ERR_IO) ∧
    (blk_req.type = VIRTIO_BLK_T_OUT →
      state.block.virtio_device.features &&& VIRTIO_BLK_F_RO = 0 →
      (file_req H h state blk_req addr len).status =
        if 0 ≤ (H.lseek h state.block.fd (file_req_offset state blk_req)).1 ∧
            (H.write (H.lseek h state.block.fd (file_req_offset state blk_req)).2
              state.block.fd addr len).1 = (len : Int)
        then MX_OK else MX_ERR_IO) ∧
    (blk_req.type = VIRTIO_BLK_T_FLUSH → blk_req.sector = 0 →
      (file_req H h state blk_req addr len).status =
        if (H.fsync h state.block.fd).1 = 0 then MX_OK else MX_ERR_IO) := by
  refine ⟨?_, ?_, ?_⟩
  · intro ht
    have hnf : blk_req.type ≠ VIRTIO_BLK_T_FLUSH := by rw [ht]; decide
    rw [file_req_not_flush H h state blk_req addr len hnf]
    by_cases hseek : (H.lseek h state.block.fd (file_req_offset state blk_req)).1 < 0
    · simp [hseek, not_le.mpr hseek]
    · simp only [hseek, if_false, not_lt.mp hseek, true_and]
      simp only [file_req_switch, ht, if_true, file_req_advance]
      split <;> simp_all
  · intro ht hrw
    have hnf : blk_req.type ≠ VIRTIO_BLK_T_FLUSH := by rw [ht]; decide
    have hni : blk_req.type ≠ VIRTIO_BLK_T_IN := by rw [ht]; decide
    rw [file_req_not_flush H h state blk_req addr len hnf]
    by_cases hseek : (H.lseek h state.block.fd (file_req_offset state blk_req)).1 < 0
    · simp [hseek, not_le.mpr hseek]
    · simp only [hseek, if_false, not_lt.mp hseek, true_and]
      simp only [file_req_switch, hni, ht, if_true, if_false, file_req_advance, hrw]
      split <;> simp_all
  · intro ht hs
    have hni : blk_req.type ≠ VIRTIO_BLK_T_IN := by rw [ht]; decide
    have hno : blk_req.type ≠ VIRTIO_BLK_T_OUT := by rw [ht]; decide
    simp only [file_req, ht, file_req_switch, hs]
    simp [VIRTIO_BLK_T_FLUSH, VIRTIO_BLK_T_IN, VIRTIO_BLK_T_OUT]

/-- C10 (amended): for every request whose type is none of IN, OUT and FLUSH,
`null_req` returns invalid-argument, and `file_req` first seeks: it returns
invalid-argument when the seek succeeds and the I/O error when the seek fails,
for every sector, buffer, length, device state and host behaviour; it makes no
other host call and leaves the buffer unchanged. -/
theorem C10_unknown_type {σ : Type} (H : host_t σ) (h : σ) (state : file_state_t)
    (blk_req : virtio_blk_req_t) (addr : List Nat) (len : Nat)
    (hi : blk_req.type ≠ VIRTIO_BLK_T_IN) (ho : blk_req.type ≠ VIRTIO_BLK_T_OUT)
    (hf : blk_req.type ≠ VIRTIO_BLK_T_FLUSH) :
    null_req blk_req addr len = ⟨MX_ERR_INVALID_ARGS, addr⟩ ∧
    file_req H h state blk_req addr len =
      ⟨if (H.lseek h state.block.fd (file_req_offset state blk_req)).1 < 0 then MX_ERR_IO
        else MX_ERR_INVALID_ARGS,
       file_req_advance state len, addr,
       (H.lseek h state.block.fd (file_req_offset state blk_req)).2,
       [.lseek state.block.fd (file_req_offset state blk_req)]⟩ := by
  constructor
  · simp [null_req, hi, ho, hf]
  · rw [file_req_not_flush H h state blk_req addr len hf]
    split
    · simp [*]
    · simp [file_req_switch, hi, ho, hf, *]

/-- Witness of C10 (amended): a request of type 7 for sector 0 of a 3-byte
backing file; the seek succeeds and both backends return invalid-argument. -/
theorem C10_unknown_type_witness :
    null_req ⟨7, 0, 0⟩ [9] 1 = ⟨MX_ERR_INVALID_ARGS, [9]⟩ ∧
    (file_req regular_file_host ⟨3, [1, 2, 3], 0, true⟩ ⟨⟨3, 3, ⟨0, 33, 1⟩⟩, 0⟩
        ⟨7, 0, 0⟩ [9] 1).status = MX_ERR_INVALID_ARGS :=
  have h := C10_unknown_type regular_file_host ⟨3, [1, 2, 3], 0, true⟩ ⟨⟨3, 3, ⟨0, 33, 1⟩⟩, 0⟩
    ⟨7, 0, 0⟩ [9] 1 (by decide) (by decide) (by decide)
  ⟨h.1, by rw [h.2]; decide⟩

/-- Counterexample to C10 as stated: a request of type 7 for sector 2^54 makes
`file_req` seek to the offset 2^63, negative as an `off_t`; the seek fails and
`file_req` returns the I/O error, not invalid-argument. -/
theorem C10_counterexample :
    (7 ≠ VIRTIO_BLK_T_IN ∧ 7 ≠ VIRTIO_BLK_T_OUT ∧ 7 ≠ VIRTIO_BLK_T_FLUSH) ∧
    (file_req regular_file_host ⟨3, [1, 2, 3], 0, true⟩ ⟨⟨3, 3, ⟨0, 33, 1⟩⟩, 0⟩
        ⟨7, 0, 2 ^ 54⟩ [9] 1).status = MX_ERR_IO ∧
    (file_req regular_file_host ⟨3, [1, 2, 3], 0, true⟩ ⟨⟨3, 3, ⟨0, 33, 1⟩⟩, 0⟩
        ⟨7, 0, 2 ^ 54⟩ [9] 1).status ≠ MX_ERR_INVALID_ARGS := by
  decide

/-- Witness of C9: on a 3-byte backing file, a read of 2 bytes at sector 0, a
write of 2 bytes at sector 0 and a flush with sector 0. -/
theorem C9_file_req_status_witness :
    (file_req regular_file_host ⟨3, [1, 2, 3], 0, true⟩ ⟨⟨3, 3, ⟨0, 33, 1⟩⟩, 0⟩
        ⟨VIRTIO_BLK_T_IN, 0, 0⟩ [9, 9] 2).status = MX_OK ∧
    (file_req regular_file_host ⟨3, [1, 2, 3], 0, true⟩ ⟨⟨3, 3, ⟨0, 33, 1⟩⟩, 0⟩
        ⟨VIRTIO_BLK_T_OUT, 0, 0⟩ [9, 9] 2).status = MX_OK ∧
    (file_req regular_file_host ⟨3, [1, 2, 3], 0, true⟩ ⟨⟨3, 3, ⟨0, 33, 1⟩⟩, 0⟩
        ⟨VIRTIO_BLK_T_FLUSH, 0, 0⟩ [9, 9] 2).status = MX_OK :=
  ⟨by rw [(C9_file_req_status regular_file_host ⟨3, [1, 2, 3], 0, true⟩
        ⟨⟨3, 3, ⟨0, 33, 1⟩⟩, 0⟩ ⟨VIRTIO_BLK_T_IN, 0, 0⟩ [9, 9] 2).1 rfl]; decide,
   by rw [(C9_file_req_status regular_file_host ⟨3, [1, 2, 3], 0, true⟩
        ⟨⟨3, 3, ⟨0, 33, 1⟩⟩, 0⟩ ⟨VIRTIO_BLK_T_OUT, 0, 0⟩ [9, 9] 2).2.1 rfl (by decide)]; decide,
   by rw [(C9_file_req_status regular_file_host ⟨3, [1, 2, 3], 0, true⟩
        ⟨⟨3, 3, ⟨0, 33, 1⟩⟩, 0⟩ ⟨VIRTIO_BLK_T_FLUSH, 0, 0⟩ [9, 9] 2).2.2 rfl rfl]; decide⟩

theorem le_bytes_eight (n : Nat) :
    le_bytes n 8 = [n % 256, n / 256 % 256, n / 256 ^ 2 % 256, n / 256 ^ 3 % 256,
      n / 256 ^ 4 % 256, n / 256 ^ 5 % 256, n / 256 ^ 6 % 256, n / 256 ^ 7 % 256] := by
  simp [le_bytes, List.range, List.range.loop]

theorem le_value_le_bytes_eight (n : Nat) (h : n < 2 ^ 64) : le_value (le_bytes n 8) = n := by
  rw [le_bytes_eight]
  simp only [le_value]
  norm_num
  omega

/-- C7: for every backing-file size `B < 2^64`, `block_read` serialises the
configuration structure with capacity `B / 512` (rounded down), block size 512
and every other field zero: for every port offset `p` inside the structure
(`p < 24`) it returns status OK, access size 1 and the `p`-th byte of the
little-endian layout of that structure. The bytes at offsets 0..7 are the
little-endian encoding of `B / 512`, the bytes at offsets 8..19 are zero and
the bytes at offsets 20..23 are the little-endian encoding of 512. -/
theorem C7_block_read (device : virtio_device_ref) (vcpu_io : mx_vcpu_io_t)
    (hB : device.impl.size < 2 ^ 64) :
    (∀ p, p < 24 → block_read device p vcpu_io = .ok (MX_OK,
        ⟨1, (virtio_blk_config_bytes ⟨device.impl.size / 512, 0, 0, 0, 0, 0, 512⟩).getD p 0⟩)) ∧
    virtio_blk_config_bytes ⟨device.impl.size / 512, 0, 0, 0, 0, 0, 512⟩ =
      le_bytes (device.impl.size / 512) 8 ++ List.replicate 12 0 ++ le_bytes 512 4 ∧
    le_value (le_bytes (device.impl.size / 512) 8) = device.impl.size / 512 ∧
    le_value (le_bytes 512 4) = 512 := by
  have hcap : device.impl.size / 512 % 2 ^ 64 = device.impl.size / 512 := by omega
  have hlen : (virtio_blk_config_bytes ⟨device.impl.size / 512, 0, 0, 0, 0, 0, 512⟩).length
      = 24 := by
    simp [virtio_blk_config_bytes, le_bytes]
  refine ⟨?_, ?_, le_value_le_bytes_eight _ (by omega), by decide⟩
  · intro p hp
    simp only [block_read, virtio_device_to_block, SECTOR_SIZE, hcap]
    rw [List.getElem?_eq_getElem (by omega)]
    simp [List.getD_eq_getElem?_getD, List.getElem?_eq_getElem (hlen ▸ hp)]
  · simp [virtio_blk_config_bytes, le_bytes, List.range, List.range.loop]

/-- Witness of C7: a backing file of 1000 bytes has capacity 1 (the remainder is
ignored); the byte at port offset 0 is 1. -/
theorem C7_block_read_witness :
    (1000 : Nat) / 512 = 1 ∧
    block_read ⟨⟨3, 1000, ⟨0, 33, 1⟩⟩⟩ 0 ⟨0, 0⟩ = .ok (MX_OK, ⟨1, 1⟩) ∧
    le_value (le_bytes (1000 / 512) 8) = 1000 / 512 :=
  have h := C7_block_read ⟨⟨3, 1000, ⟨0, 33, 1⟩⟩⟩ ⟨0, 0⟩ (by decide)
  ⟨by decide, by rw [h.1 0 (by decide)]; decide, h.2.2.1⟩

theorem to_uint64_natCast (n : Nat) (h : n < 2 ^ 64) : to_uint64 (n : Int) = n := by
  unfold to_uint64
  omega

theorem to_off_t_of_lt (n : Nat) (h : n < 2 ^ 63) : to_off_t n = (n : Int) := by
  unfold to_off_t
  have h1 : n % 2 ^ 64 = n := by omega
  rw [h1, if_pos h]

theorem file_req_offset_natCast (block : block_t) (o : Nat) (blk_req : virtio_blk_req_t)
    (h : blk_req.sector * 512 + o < 2 ^ 63) :
    file_req_offset ⟨block, (o : Int)⟩ blk_req = ((blk_req.sector * 512 + o : Nat) : Int) := by
  unfold file_req_offset SECTOR_SIZE
  simp only []
  rw [to_uint64_natCast o (by omega), Nat.mod_eq_of_lt (by omega), to_off_t_of_lt _ h]

theorem file_req_advance_natCast (block : block_t) (o len : Nat) (h : o + len < 2 ^ 63) :
    file_req_advance ⟨block, (o : Int)⟩ len = ⟨block, ((o + len : Nat) : Int)⟩ := by
  unfold file_req_advance
  simp only []
  have e : (o : Int) + (len : Int) = ((o + len : Nat) : Int) := by push_cast; rfl
  rw [e, to_uint64_natCast _ (by omega), to_off_t_of_lt _ h]

theorem file_req_head_call {σ : Type} (H : host_t σ) (h : σ) (state : file_state_t)
    (blk_req : virtio_blk_req_t) (addr : List Nat) (len : Nat)
    (ht : blk_req.type = VIRTIO_BLK_T_IN) :
    (file_req H h state blk_req addr len).calls.head? =
        some (.lseek state.block.fd (file_req_offset state blk_req)) ∧
      (file_req H h state blk_req addr len).state = file_req_advance state len := by
  have hnf : blk_req.type ≠ VIRTIO_BLK_T_FLUSH := by rw [ht]; decide
  rw [file_req_not_flush H h state blk_req addr len hnf]
  split
  · simp
  · simp [file_req_switch, ht]

theorem regular_file_lseek (f : regular_file) (n : Nat) :
    regular_file_host.lseek f f.fd (n : Int) = ((n : Int), ⟨f.fd, f.data, n, f.writable⟩) := by
  have h : ¬ ((n : Int) < 0) := by omega
  simp [regular_file_host, h]

theorem regular_file_read (f : regular_file) (buf : List Nat) (len : Nat) :
    regular_file_host.read f f.fd buf len =
      ((((f.data.drop f.pos).take len).length : Int),
        (f.data.drop f.pos).take len ++ buf.drop ((f.data.drop f.pos).take len).length,
        ⟨f.fd, f.data, f.pos + ((f.data.drop f.pos).take len).length, f.writable⟩) := by
  simp [regular_file_host]

theorem file_req_read_regular (f : regular_file) (block : block_t) (o : Nat)
    (blk_req : virtio_blk_req_t) (addr : List Nat) (len : Nat)
    (ht : blk_req.type = VIRTIO_BLK_T_IN) (hfd : block.fd = f.fd)
    (h : blk_req.sector * 512 + o + len < 2 ^ 63)
    (chunk : List Nat) (hc : chunk = (f.data.drop (blk_req.sector * 512 + o)).take len) :
    file_req regular_file_host f ⟨block, (o : Int)⟩ blk_req addr len =
      ⟨if chunk.length = len then MX_OK else MX_ERR_IO, ⟨block, ((o + len : Nat) : Int)⟩,
        chunk ++ addr.drop chunk.length,
        ⟨f.fd, f.data, blk_req.sector * 512 + o + chunk.length, f.writable⟩,
        [.lseek f.fd ((blk_req.sector * 512 + o : Nat) : Int), .read f.fd len]⟩ := by
  have hnf : blk_req.type ≠ VIRTIO_BLK_T_FLUSH := by rw [ht]; decide
  have hnn : ¬ (((blk_req.sector * 512 + o : Nat) : Int) < 0) := by omega
  rw [file_req_not_flush _ _ _ _ _ _ hnf, file_req_offset_natCast block o blk_req (by omega),
    file_req_advance_natCast block o len (by omega)]
  simp only [hfd, regular_file_lseek, hnn, if_false, file_req_switch, ht, if_true]
  have hr := regular_file_read ⟨f.fd, f.data, blk_req.sector * 512 + o, f.writable⟩ addr len
  simp only [] at hr
  rw [hr, ← hc]
  simp

/-- C3: for every sector `S` and buffer lengths `L1`, `L2` with
`S*512 + L1 + L2 < 2^63`, two successive `file_req` calls for a read (IN) request
with sector `S`, on the same `file_state` whose cumulative offset starts at 0:
on every host the first call starts by seeking to `S*512` and the second by
seeking to `S*512 + L1`; on an ordinary backing file the first call seeks to
`S*512` and reads `L1` bytes, which puts the file bytes from `S*512` on (at most
`L1` of them) at the start of the first buffer, and the second call seeks to
`S*512 + L1` and reads `L2` bytes, which puts the file bytes from `S*512 + L1` on
at the start of the second buffer; the file content is unchanged; when the
file holds `S*512 + L1 + L2` bytes and the buffers have lengths `L1` and `L2`,
both calls return OK and the buffers are exactly the file bytes
`[S*512, S*512 + L1)` and `[S*512 + L1, S*512 + L1 + L2)`. -/
theorem C3_chained_read (f : regular_file) (block : block_t) (blk_req : virtio_blk_req_t)
    (L1 L2 : Nat) (buf1 buf2 : List Nat) (r1 r2 : file_req_result regular_file)
    (ht : blk_req.type = VIRTIO_BLK_T_IN) (hfd : block.fd = f.fd)
    (hS : blk_req.sector * 512 + L1 + L2 < 2 ^ 63)
    (h1 : r1 = file_req regular_file_host f ⟨block, 0⟩ blk_req buf1 L1)
    (h2 : r2 = file_req regular_file_host r1.host r1.state blk_req buf2 L2) :
    (∀ (σ : Type) (H : host_t σ) (h : σ),
      (file_req H h ⟨block, 0⟩ blk_req buf1 L1).calls.head?
        = some (.lseek block.fd ((blk_req.sector * 512 : Nat) : Int)) ∧
      (file_req H (file_req H h ⟨block, 0⟩ blk_req buf1 L1).host
          (file_req H h ⟨block, 0⟩ blk_req buf1 L1).state blk_req buf2 L2).calls.head?
        = some (.lseek block.fd ((blk_req.sector * 512 + L1 : Nat) : Int))) ∧
    r1.calls = [.lseek f.fd ((blk_req.sector * 512 : Nat) : Int), .read f.fd L1] ∧
    r2.calls = [.lseek f.fd ((blk_req.sector * 512 + L1 : Nat) : Int), .read f.fd L2] ∧
    r1.addr = (f.data.drop (blk_req.sector * 512)).take L1
      ++ buf1.drop ((f.data.drop (blk_req.sector * 512)).take L1).length ∧
    r2.addr = (f.data.drop (blk_req.sector * 512 + L1)).take L2
      ++ buf2.drop ((f.data.drop (blk_req.sector * 512 + L1)).take L2).length ∧
    r2.host.data = f.data ∧
    (blk_req.sector * 512 + L1 + L2 ≤ f.data.length → buf1.length = L1 → buf2.length = L2 →
      r1.status = MX_OK ∧ r2.status = MX_OK ∧
      r1.addr = (f.data.drop (blk_req.sector * 512)).take L1 ∧
      r2.addr = (f.data.drop (blk_req.sector * 512 + L1)).take L2) := by
  have e1 := file_req_read_regular f block 0 blk_req buf1 L1 ht hfd (by omega) _ rfl
  rw [Nat.cast_zero, Nat.add_zero, Nat.zero_add, ← h1] at e1
  have e2 := file_req_read_regular r1.host block L1 blk_req buf2 L2 ht
    (by rw [e1]; exact hfd) (by omega) _ rfl
  have hst : r1.state = ⟨block, ((L1 : Nat) : Int)⟩ := by rw [e1]
  rw [← hst, ← h2] at e2
  have hd : r1.host.data = f.data := by rw [e1]
  have hfd1 : r1.host.fd = f.fd := by rw [e1]
  rw [hd, hfd1] at e2
  refine ⟨?_, by rw [e1], by rw [e2], ?_, ?_, by rw [e2], ?_⟩
  · intro σ H h
    obtain ⟨c1, s1⟩ := file_req_head_call H h ⟨block, 0⟩ blk_req buf1 L1 ht
    obtain ⟨c2, _⟩ := file_req_head_call H (file_req H h ⟨block, 0⟩ blk_req buf1 L1).host
      (file_req H h ⟨block, 0⟩ blk_req buf1 L1).state blk_req buf2 L2 ht
    have o1 := file_req_offset_natCast block 0 blk_req (by omega)
    have a1 := file_req_advance_natCast block 0 L1 (by omega)
    rw [Nat.cast_zero, Nat.add_zero] at o1
    rw [Nat.cast_zero, Nat.zero_add] at a1
    have o2 := file_req_offset_natCast block L1 blk_req (by omega)
    rw [c1, c2, s1, o1, a1, o2]
    exact ⟨rfl, rfl⟩
  · rw [e1]
  · rw [e2]
  · intro hlen hb1 hb2
    have l1 : ((f.data.drop (blk_req.sector * 512)).take L1).length = L1 := by
      simp; omega
    have l2 : ((f.data.drop (blk_req.sector * 512 + L1)).take L2).length = L2 := by
      simp; omega
    refine ⟨by rw [e1]; simp only [l1, if_true], by rw [e2]; simp only [l2, if_true], ?_, ?_⟩
    · have d1 : buf1.drop L1 = [] := List.drop_of_length_le (by omega)
      rw [e1]
      simp only [l1, d1, List.append_nil]
    · have d2 : buf2.drop L2 = [] := List.drop_of_length_le (by omega)
      rw [e2]
      simp only [l2, d2, List.append_nil]

/-- Witness of C3: sector 4 and buffer lengths 512 and 256 on a backing file of
2048 bytes 0, then 512 bytes 1, then 256 bytes 2: buffer 1 is file bytes
`[2048, 2560)`, all 1, and buffer 2 is file bytes `[2560, 2816)`, all 2. -/
theorem C3_chained_read_witness :
    (file_req regular_file_host
        ⟨3, List.replicate 2048 0 ++ (List.replicate 512 1 ++ List.replicate 256 2), 0, true⟩
        ⟨⟨3, 2816, ⟨0, 33, 1⟩⟩, 0⟩ ⟨VIRTIO_BLK_T_IN, 0, 4⟩ (List.replicate 512 0) 512).addr
      = List.replicate 512 1 ∧
    (file_req regular_file_host
        (file_req regular_file_host
          ⟨3, List.replicate 2048 0 ++ (List.replicate 512 1 ++ List.replicate 256 2), 0, true⟩
          ⟨⟨3, 2816, ⟨0, 33, 1⟩⟩, 0⟩ ⟨VIRTIO_BLK_T_IN, 0, 4⟩ (List.replicate 512 0) 512).host
        (file_req regular_file_host
          ⟨3, List.replicate 2048 0 ++ (List.replicate 512 1 ++ List.replicate 256 2), 0, true⟩
          ⟨⟨3, 2816, ⟨0, 33, 1⟩⟩, 0⟩ ⟨VIRTIO_BLK_T_IN, 0, 4⟩ (List.replicate 512 0) 512).state
        ⟨VIRTIO_BLK_T_IN, 0, 4⟩ (List.replicate 256 0) 256).addr
      = List.replicate 256 2 := by
  have h := C3_chained_read
    ⟨3, List.replicate 2048 0 ++ (List.replicate 512 1 ++ List.replicate 256 2), 0, true⟩
    ⟨3, 2816, ⟨0, 33, 1⟩⟩ ⟨VIRTIO_BLK_T_IN, 0, 4⟩ 512 256 (List.replicate 512 0)
    (List.replicate 256 0) _ _ rfl rfl (by decide) rfl rfl
  have h2 := h.2.2.2.2.2.2
    (by simp only [List.length_append, List.length_replicate]; decide)
    (List.length_replicate ..) (List.length_replicate ..)
  have d1 : ∀ (a b c : List Nat), a.length = 2048 → b.length = 512 →
      ((a ++ (b ++ c)).drop (4 * 512)).take 512 = b := by
    intro a b c ha hb
    rw [List.drop_append_of_le_length (by omega), List.drop_of_length_le (by omega),
      List.nil_append, List.take_append_of_le_length (by omega), List.take_of_length_le (by omega)]
  have d2 : ∀ (a b c : List Nat), a.length = 2048 → b.length = 512 → c.length = 256 →
      ((a ++ (b ++ c)).drop (4 * 512 + 512)).take 256 = c := by
    intro a b c ha hb hc
    rw [← List.append_assoc, List.drop_append_of_le_length (by simp; omega),
      List.drop_of_length_le (by simp; omega), List.nil_append,
      List.take_of_length_le (by omega)]
  exact ⟨h2.2.2.1.trans (d1 _ _ _ (List.length_replicate ..) (List.length_replicate ..)),
    h2.2.2.2.trans (d2 _ _ _ (List.length_replicate ..) (List.length_replicate ..)
      (List.length_replicate ..))⟩

/-! ## Theorems: drain loops -/

theorem file_block_device_run {W : Type} (vqh : virtio_queue_handler_t W) (block : block_t)
    (k : Nat) : ∀ (fuel : Nat) (w : W),
    (∀ i, i < k → handler_status vqh block i w = MX_ERR_NEXT) →
    handler_status vqh block k w ≠ MX_ERR_NEXT → k < fuel →
    file_block_device vqh block fuel w =
      some ⟨handler_status vqh block k w, handler_world vqh block (k + 1) w,
        List.replicate (k + 1) ⟨block, 0⟩⟩ := by
  induction k with
  | zero =>
    intro fuel w _ hne hfuel
    obtain ⟨f, rfl⟩ : ∃ f, fuel = f + 1 := ⟨fuel - 1, by omega⟩
    have hne2 : (vqh w ⟨block, 0⟩).1 ≠ MX_ERR_NEXT := hne
    simp [file_block_device, hne2, handler_status, handler_world]
  | succ k ih =>
    intro fuel w hnext hne hfuel
    obtain ⟨f, rfl⟩ : ∃ f, fuel = f + 1 := ⟨fuel - 1, by omega⟩
    have h0 : (vqh w ⟨block, 0⟩).1 = MX_ERR_NEXT := hnext 0 (by omega)
    have hrec := ih f (vqh w ⟨block, 0⟩).2
      (fun i hi => hnext (i + 1) (by omega)) hne (by omega)
    simp only [file_block_device, h0, if_true, hrec, Option.map_some']
    rfl

theorem file_block_device_sound {W : Type} (vqh : virtio_queue_handler_t W) (block : block_t) :
    ∀ (fuel : Nat) (w : W) (d : drain_result W), file_block_device vqh block fuel w = some d →
      d.status ≠ MX_ERR_NEXT ∧ ∀ c, c ∈ d.contexts → c = ⟨block, 0⟩ := by
  intro fuel
  induction fuel with
  | zero => intro w d h; simp [file_block_device] at h
  | succ f ih =>
    intro w d h
    by_cases h0 : (vqh w ⟨block, 0⟩).1 = MX_ERR_NEXT
    · simp only [file_block_device, h0, if_true, Option.map_eq_some'] at h
      obtain ⟨d1, hd1, rfl⟩ := h
      obtain ⟨hs, hc⟩ := ih _ d1 hd1
      refine ⟨hs, ?_⟩
      intro c hcm
      simp only [List.mem_cons] at hcm
      rcases hcm with rfl | hcm
      · rfl
      · exact hc c hcm
    · simp only [file_block_device, h0, if_false, Option.some.injEq] at h
      subst h
      exact ⟨h0, by simp⟩

theorem null_block_device_run {W : Type} (vqh : virtio_queue_handler_null_t W)
    (k : Nat) : ∀ (fuel : Nat) (w : W),
    (∀ i, i < k → null_handler_status vqh i w = MX_ERR_NEXT) →
    null_handler_status vqh k w ≠ MX_ERR_NEXT → k < fuel →
    null_block_device vqh fuel w =
      some ⟨null_handler_status vqh k w, null_handler_world vqh (k + 1) w, k + 1⟩ := by
  induction k with
  | zero =>
    intro fuel w _ hne hfuel
    obtain ⟨f, rfl⟩ : ∃ f, fuel = f + 1 := ⟨fuel - 1, by omega⟩
    have hne2 : (vqh w).1 ≠ MX_ERR_NEXT := hne
    simp [null_block_device, hne2, null_handler_status, null_handler_world]
  | succ k ih =>
    intro fuel w hnext hne hfuel
    obtain ⟨f, rfl⟩ : ∃ f, fuel = f + 1 := ⟨fuel - 1, by omega⟩
    have h0 : (vqh w).1 = MX_ERR_NEXT := hnext 0 (by omega)
    have hrec := ih f (vqh w).2 (fun i hi => hnext (i + 1) (by omega)) hne (by omega)
    simp only [null_block_device, h0, if_true, hrec, Option.map_some']
    rfl

theorem null_block_device_sound {W : Type} (vqh : virtio_queue_handler_null_t W) :
    ∀ (fuel : Nat) (w : W) (d : null_drain_result W), null_block_device vqh fuel w = some d →
      d.status ≠ MX_ERR_NEXT := by
  intro fuel
  induction fuel with
  | zero => intro w d h; simp [null_block_device] at h
  | succ f ih =>
    intro w d h
    by_cases h0 : (vqh w).1 = MX_ERR_NEXT
    · simp only [null_block_device, h0, if_true, Option.map_eq_some'] at h
      obtain ⟨d1, hd1, rfl⟩ := h
      exact ih _ d1 hd1
    · simp only [null_block_device, h0, if_false, Option.some.injEq] at h
      subst h
      exact h0

/-- C11: take the statuses returned by successive calls of the Virtqueue
Processor. If the first `k` statuses are the continue status `MX_ERR_NEXT` and
status number `k + 1` is another status `t`, then `file_block_device`, given room
for `k + 1` iterations, calls the processor exactly `k + 1` times and returns
`t`, and so does `null_block_device`; whenever either loop returns, the status
is not `MX_ERR_NEXT`; a terminal `MX_OK` is returned as it is. -/
theorem C11_drain_loop {W : Type} (vqh : virtio_queue_handler_t W)
    (nvqh : virtio_queue_handler_null_t W) (block : block_t) (k fuel : Nat) (w : W)
    (t : mx_status_t) (ht : t ≠ MX_ERR_NEXT) (hfuel : k < fuel) :
    ((∀ i, i < k → handler_status vqh block i w = MX_ERR_NEXT) →
      handler_status vqh block k w = t →
      ∃ d, file_block_device vqh block fuel w = some d ∧ d.status = t ∧
        d.contexts.length = k + 1 ∧ d.world = handler_world vqh block (k + 1) w) ∧
    ((∀ i, i < k → null_handler_status nvqh i w = MX_ERR_NEXT) →
      null_handler_status nvqh k w = t →
      null_block_device nvqh fuel w = some ⟨t, null_handler_world nvqh (k + 1) w, k + 1⟩) ∧
    (∀ d, file_block_device vqh block fuel w = some d → d.status ≠ MX_ERR_NEXT) ∧
    (∀ d, null_block_device nvqh fuel w = some d → d.status ≠ MX_ERR_NEXT) := by
  refine ⟨?_, ?_, ?_, ?_⟩
  · intro hnext hk
    refine ⟨_, file_block_device_run vqh block k fuel w hnext (by rw [hk]; exact ht) hfuel,
      hk, by simp, rfl⟩
  · intro hnext hk
    rw [null_block_device_run nvqh k fuel w hnext (by rw [hk]; exact ht) hfuel, hk]
  · intro d hd
    exact (file_block_device_sound vqh block fuel w d hd).1
  · intro d hd
    exact null_block_device_sound nvqh fuel w d hd

/-- Witness of C11: the processor returns `MX_ERR_NEXT`, `MX_ERR_NEXT`, `MX_OK`
(the world counts its calls); both loops call it three times and return
`MX_OK`. -/
theorem C11_drain_loop_witness :
    (∃ d, file_block_device (fun (n : Nat) _ => (if n < 2 then MX_ERR_NEXT else MX_OK, n + 1))
        ⟨3, 3, ⟨0, 33, 1⟩⟩ 5 0 = some d ∧ d.status = MX_OK ∧ d.contexts.length = 3 ∧
        d.world = 3) ∧
    null_block_device (fun (n : Nat) => (if n < 2 then MX_ERR_NEXT else MX_OK, n + 1)) 5 0
      = some ⟨MX_OK, 3, 3⟩ :=
  have h := C11_drain_loop
    (fun (n : Nat) _ => (if n < 2 then MX_ERR_NEXT else MX_OK, n + 1))
    (fun (n : Nat) => (if n < 2 then MX_ERR_NEXT else MX_OK, n + 1))
    ⟨3, 3, ⟨0, 33, 1⟩⟩ 2 5 0 MX_OK (by decide) (by decide)
  ⟨h.1 (by decide) (by decide), h.2.1 (by decide) (by decide)⟩

/-! ## Theorems: IO APIC, unhandled accesses, bounds and frame -/

theorem handler_no_out_of_bounds (N base : Nat) (rej : mx_status_t) (io : io_apic_t)
    (memory : mx_guest_memory_t) (inst : instruction_t) (hlen : io.redirect.length = N)
    (haddr : base ≤ memory.addr) :
    ∃ r, io_apic_handler N base rej io memory inst = .ok r := by
  have hna : ¬ memory.addr < base := by omega
  unfold io_apic_handler
  simp only [hna, if_false]
  split
  · split <;> exact ⟨_, rfl⟩
  · split
    · split
      · exact ⟨_, rfl⟩
      · split
        · exact ⟨_, rfl⟩
        · split
          · exact ⟨_, rfl⟩
          · split
            · rename_i hr
              obtain ⟨hidx, hlt⟩ := redirect_index_lt N io.select hr.1 hr.2
              simp only [hidx]
              rw [List.getElem?_eq_getElem (by omega)]
              exact ⟨_, rfl⟩
            · exact ⟨_, rfl⟩
    · exact ⟨_, rfl⟩

/-- C12: `io_apic_handler` returns not-supported, delivers no value and leaves
the IO APIC state (select, id, every redirect slot) unchanged (1) for every
access whose offset from the base is neither 0x00 nor 0x10, and (2) for every
access to the window register (offset 0x10) while select is none of ID,
VERSION, ARBITRATION and not in `[FIRST_REDIRECT_OFFSET, LAST_REDIRECT_OFFSET]`. -/
theorem C12_unhandled (N base : Nat) (rej : mx_status_t) (io : io_apic_t)
    (memory : mx_guest_memory_t) (inst : instruction_t) (haddr : base ≤ memory.addr) :
    (memory.addr - base ≠ IO_APIC_IOREGSEL → memory.addr - base ≠ IO_APIC_IOWIN →
      io_apic_handler N base rej io memory inst = .ok ⟨MX_ERR_NOT_SUPPORTED, io, none⟩) ∧
    (memory.addr - base = IO_APIC_IOWIN →
      io.select ≠ IO_APIC_REGISTER_ID → io.select ≠ IO_APIC_REGISTER_VER →
      io.select ≠ IO_APIC_REGISTER_ARBITRATION →
      ¬ (FIRST_REDIRECT_OFFSET ≤ io.select ∧ io.select ≤ LAST_REDIRECT_OFFSET N) →
      io_apic_handler N base rej io memory inst = .ok ⟨MX_ERR_NOT_SUPPORTED, io, none⟩) := by
  have hna : ¬ memory.addr < base := by omega
  constructor
  · intro h0 h1
    unfold io_apic_handler
    simp only [hna, h0, h1, if_false]
  · intro hw h0 h1 h2 hr
    have hs : IO_APIC_IOWIN ≠ IO_APIC_IOREGSEL := by decide
    unfold io_apic_handler
    simp only [hna, hs, hw, h0, h1, h2, hr, if_false, if_true]

/-- Witness of C12: with 128 redirect slots, an access at offset 0x20, and a
window read while select is 0x03. -/
theorem C12_unhandled_witness :
    io_apic_handler 128 0xfec00000 MX_ERR_NOT_SUPPORTED (io_apic_init 128) ⟨0xfec00020⟩ (.read 4)
      = .ok ⟨MX_ERR_NOT_SUPPORTED, io_apic_init 128, none⟩ ∧
    io_apic_handler 128 0xfec00000 MX_ERR_NOT_SUPPORTED ⟨3, 0, List.replicate 128 0⟩
        ⟨0xfec00010⟩ (.read 4)
      = .ok ⟨MX_ERR_NOT_SUPPORTED, ⟨3, 0, List.replicate 128 0⟩, none⟩ :=
  ⟨(C12_unhandled 128 0xfec00000 MX_ERR_NOT_SUPPORTED (io_apic_init 128) ⟨0xfec00020⟩ (.read 4)
      (by decide)).1 (by decide) (by decide),
   (C12_unhandled 128 0xfec00000 MX_ERR_NOT_SUPPORTED ⟨3, 0, List.replicate 128 0⟩
      ⟨0xfec00010⟩ (.read 4) (by decide)).2 (by decide) (by decide) (by decide) (by decide)
      (by decide)⟩

theorem handler_redirect_untouched (N base : Nat) (rej : mx_status_t) (io : io_apic_t)
    (memory : mx_guest_memory_t) (inst : instruction_t)
    (hr : ¬ (FIRST_REDIRECT_OFFSET ≤ io.select ∧ io.select ≤ LAST_REDIRECT_OFFSET N))
    (red : List Nat) :
    io_apic_handler N base rej ⟨io.select, io.id, red⟩ memory inst =
      (io_apic_handler N base rej io memory inst).map
        fun r => ⟨r.status, ⟨r.io_apic.select, r.io_apic.id, red⟩, r.reg⟩ := by
  unfold io_apic_handler
  simp only [hr, if_false]
  repeat' split
  all_goals rfl

/-- C17: for every IO APIC state with `N` redirect slots, whatever its select
register holds (also a value above 0xFF left by a rejected select write), and
every access: the redirect table is indexed only when select lies in
`[FIRST_REDIRECT_OFFSET, LAST_REDIRECT_OFFSET]`, and then at the index
`select - FIRST_REDIRECT_OFFSET`, which is below `N`; so `io_apic_handler` never
takes the out-of-bounds branch, and it returns a result whenever the address
is not below the base. When select lies outside that range the table is not
touched: the handler does the same on any other table and hands it back
unchanged. -/
theorem C17_redirect_in_bounds (N base : Nat) (rej : mx_status_t) (io : io_apic_t)
    (memory : mx_guest_memory_t) (inst : instruction_t) (hlen : io.redirect.length = N) :
    io_apic_handler N base rej io memory inst ≠ .error .out_of_bounds ∧
    (base ≤ memory.addr → ∃ r, io_apic_handler N base rej io memory inst = .ok r) ∧
    (FIRST_REDIRECT_OFFSET ≤ io.select → io.select ≤ LAST_REDIRECT_OFFSET N →
      (io.select + 2 ^ 32 - FIRST_REDIRECT_OFFSET) % 2 ^ 32 = io.select - FIRST_REDIRECT_OFFSET ∧
      io.select - FIRST_REDIRECT_OFFSET < io.redirect.length) ∧
    (¬ (FIRST_REDIRECT_OFFSET ≤ io.select ∧ io.select ≤ LAST_REDIRECT_OFFSET N) →
      ∀ red : List Nat,
        io_apic_handler N base rej ⟨io.select, io.id, red⟩ memory inst =
          (io_apic_handler N base rej io memory inst).map
            fun r => ⟨r.status, ⟨r.io_apic.select, r.io_apic.id, red⟩, r.reg⟩) := by
  refine ⟨?_, handler_no_out_of_bounds N base rej io memory inst hlen, ?_,
    handler_redirect_untouched N base rej io memory inst⟩
  · by_cases haddr : base ≤ memory.addr
    · obtain ⟨r, hr⟩ := handler_no_out_of_bounds N base rej io memory inst hlen haddr
      rw [hr]
      exact fun h => by cases h
    · have hlt : memory.addr < base := by omega
      simp [io_apic_handler, hlt]
  · intro h1 h2
    rw [hlen]
    exact redirect_index_lt N io.select h1 h2

/-- Witness of C17: 128 redirect slots, select 0x8f (the last slot) and select
0x100 (left by a rejected select write), window reads. -/
theorem C17_redirect_in_bounds_witness :
    io_apic_handler 128 0xfec00000 MX_ERR_NOT_SUPPORTED ⟨0x100, 0, List.replicate 128 0⟩
        ⟨0xfec00010⟩ (.read 4) ≠ .error .out_of_bounds ∧
    ((0x8f + 2 ^ 32 - FIRST_REDIRECT_OFFSET) % 2 ^ 32 = 0x8f - FIRST_REDIRECT_OFFSET ∧
      0x8f - FIRST_REDIRECT_OFFSET < (List.replicate 128 0).length) :=
  ⟨(C17_redirect_in_bounds 128 0xfec00000 MX_ERR_NOT_SUPPORTED ⟨0x100, 0, List.replicate 128 0⟩
      ⟨0xfec00010⟩ (.read 4) (List.length_replicate ..)).1,
   (C17_redirect_in_bounds 128 0xfec00000 MX_ERR_NOT_SUPPORTED ⟨0x8f, 0, List.replicate 128 0⟩
      ⟨0xfec00010⟩ (.read 4) (List.length_replicate ..)).2.2.1 (by decide) (by decide)⟩

theorem inst_write32_value_of_not_write (rej : mx_status_t) (inst : instruction_t) (x : Nat)
    (h : ∀ val, inst ≠ .write 4 val) : (inst_write32 rej inst x).value = x := by
  unfold inst_write32
  split
  · rename_i val
    exact absurd rfl (h val)
  · rfl

theorem inst_rw32_value_of_not_write (rej : mx_status_t) (inst : instruction_t) (x : Nat)
    (h : ∀ val, inst ≠ .write 4 val) : (inst_rw32 rej inst x).value = x := by
  unfold inst_rw32
  split
  · rename_i val
    exact absurd rfl (h val)
  · rfl
  · rfl

theorem inst_read32_value (rej : mx_status_t) (inst : instruction_t) (x : Nat) :
    (inst_read32 rej inst x).value = x := by
  unfold inst_read32
  split <;> rfl

theorem handler_frame_of_not_write (N base : Nat) (rej : mx_status_t) (io : io_apic_t)
    (memory : mx_guest_memory_t) (inst : instruction_t) (r : io_apic_result)
    (hr : io_apic_handler N base rej io memory inst = .ok r)
    (h : ∀ val, inst ≠ .write 4 val) : r.io_apic = io := by
  unfold io_apic_handler at hr
  simp only [inst_write32_value_of_not_write rej inst _ h,
    inst_rw32_value_of_not_write rej inst _ h] at hr
  repeat' split at hr
  all_goals first
    | (cases hr; done)
    | (cases hr; rfl)
    | skip
  rename_i x heq
  cases hr
  have hx : x = (io.redirect[(io.select + 2 ^ 32 - FIRST_REDIRECT_OFFSET) % 2 ^ 32]?).getD 0 := by
    rw [heq]; rfl
  show (⟨io.select, io.id, io.redirect.set _ x⟩ : io_apic_t) = io
  rw [hx, list_set_getD_self]

/-- C19: frame property of `io_apic_handler`, for every IO APIC state with `N`
redirect slots and every access at or above the base (the handler then returns
a result): an access to the select register leaves `id` and all redirect slots
unchanged; a window access with select = ID leaves `select` and all redirect
slots unchanged; a window access with select in
`[FIRST_REDIRECT_OFFSET, LAST_REDIRECT_OFFSET]` leaves `select`, `id`, the
number of slots and every slot other than `select - FIRST_REDIRECT_OFFSET`
unchanged; a window access with select = VERSION or ARBITRATION leaves the
whole state unchanged; and every access that is not a 32-bit write (so every
read) leaves the whole state unchanged. -/
theorem C19_frame (N base : Nat) (rej : mx_status_t) (io : io_apic_t)
    (memory : mx_guest_memory_t) (inst : instruction_t) (hlen : io.redirect.length = N)
    (haddr : base ≤ memory.addr) :
    ∃ r, io_apic_handler N base rej io memory inst = .ok r ∧
      (memory.addr - base = IO_APIC_IOREGSEL →
        r.io_apic.id = io.id ∧ r.io_apic.redirect = io.redirect) ∧
      (memory.addr - base = IO_APIC_IOWIN → io.select = IO_APIC_REGISTER_ID →
        r.io_apic.select = io.select ∧ r.io_apic.redirect = io.redirect) ∧
      (memory.addr - base = IO_APIC_IOWIN →
        FIRST_REDIRECT_OFFSET ≤ io.select → io.select ≤ LAST_REDIRECT_OFFSET N →
        r.io_apic.select = io.select ∧ r.io_apic.id = io.id ∧
        r.io_apic.redirect.length = io.redirect.length ∧
        ∀ j, j ≠ io.select - FIRST_REDIRECT_OFFSET →
          r.io_apic.redirect[j]? = io.redirect[j]?) ∧
      (memory.addr - base = IO_APIC_IOWIN →
        io.select = IO_APIC_REGISTER_VER ∨ io.select = IO_APIC_REGISTER_ARBITRATION →
        r.io_apic = io) ∧
      ((∀ val, inst ≠ .write 4 val) → r.io_apic = io) := by
  obtain ⟨r, hr⟩ := handler_no_out_of_bounds N base rej io memory inst hlen haddr
  have hna : ¬ memory.addr < base := by omega
  have hws : IO_APIC_IOWIN ≠ IO_APIC_IOREGSEL := by decide
  refine ⟨r, hr, ?_, ?_, ?_, ?_, handler_frame_of_not_write N base rej io memory inst r hr⟩
  · intro hs
    unfold io_apic_handler at hr
    simp only [hna, hs, if_false, if_true] at hr
    split at hr <;> cases hr <;> exact ⟨rfl, rfl⟩
  · intro hw hid
    unfold io_apic_handler at hr
    simp only [hna, hw, hws, hid, if_false, if_true] at hr
    cases hr
    exact ⟨hid.symm ▸ rfl, rfl⟩
  · intro hw h1 h2
    have hmem : memory = ⟨base + IO_APIC_IOWIN⟩ := by
      cases memory
      simp only [mx_guest_memory_t.mk.injEq] at *
      omega
    rw [hmem, handler_window_redirect N base rej io inst hlen h1 h2 _ rfl _ rfl] at hr
    cases hr
    refine ⟨rfl, rfl, by simp, ?_⟩
    intro j hj
    simp [List.getElem?_set_ne (Ne.symm hj)]
  · intro hw hsel
    unfold io_apic_handler at hr
    rcases hsel with hv | ha
    · have h0 : io.select ≠ IO_APIC_REGISTER_ID := by rw [hv]; decide
      simp only [hna, hw, hws, h0, hv, if_false, if_true] at hr
      cases hr
      rfl
    · have h0 : io.select ≠ IO_APIC_REGISTER_ID := by rw [ha]; decide
      have h1 : io.select ≠ IO_APIC_REGISTER_VER := by rw [ha]; decide
      simp only [hna, hw, hws, h0, h1, ha, if_false, if_true] at hr
      cases hr
      rfl

/-- Witness of C19: 128 redirect slots, select 0x11, a 32-bit write of 7 to the
window register: select, id and slot 0 are as before. -/
theorem C19_frame_witness :
    ∃ r, io_apic_handler 128 0xfec00000 MX_ERR_NOT_SUPPORTED ⟨0x11, 5, List.replicate 128 0⟩
        ⟨0xfec00010⟩ (.write 4 7) = .ok r ∧
      r.io_apic.select = 0x11 ∧ r.io_apic.id = 5 ∧
      r.io_apic.redirect[0]? = (List.replicate 128 0)[0]? :=
  have ⟨r, hr, _, _, h3, _, _⟩ := C19_frame 128 0xfec00000 MX_ERR_NOT_SUPPORTED
    ⟨0x11, 5, List.replicate 128 0⟩ ⟨0xfec00010⟩ (.write 4 7) (List.length_replicate ..)
    (by decide)
  have h := h3 (by decide) (by decide) (by decide)
  ⟨r, hr, h.1, h.2.1, h.2.2.2 0 (by decide)⟩

/-- C13: for every IO APIC state with `N` redirect slots, every global interrupt
index `g < N/2` (an 8-bit value) and every 32-bit value `v`: after the guest
programs the low half of redirection entry `g` (select `0x10 + 2*g`, then `v`
written to the window register), `io_apic_redirect` returns `v mod 256`; a later
write of any value `u` to the high half (select `0x10 + 2*g + 1`) does not
change that result. `io_apic_redirect` takes the state and returns the vector
only, it has no state to hand back. -/
theorem C13_redirect_vector (N base : Nat) (rej : mx_status_t) (io : io_apic_t) (g v u : Nat)
    (hlen : io.redirect.length = N) (hN : FIRST_REDIRECT_OFFSET + N ≤ 2 ^ 32)
    (hg : g < N / 2) (_hg8 : g < 256) (hv : v < 2 ^ 32) :
    ∃ io2 io3,
      io_apic_run N base rej io
        [select_write base (FIRST_REDIRECT_OFFSET + 2 * g), window_write base v]
        = .ok ⟨MX_OK, io2, none⟩ ∧
      io_apic_redirect io2 g = .ok (v % 256) ∧
      io_apic_run N base rej io2
        [select_write base (FIRST_REDIRECT_OFFSET + 2 * g + 1), window_write base u]
        = .ok ⟨MX_OK, io3, none⟩ ∧
      io_apic_redirect io3 g = .ok (v % 256) := by
  have hlast : LAST_REDIRECT_OFFSET N = FIRST_REDIRECT_OFFSET + N - 1 := by
    simp only [LAST_REDIRECT_OFFSET, FIRST_REDIRECT_OFFSET] at *
    omega
  have hs1 : FIRST_REDIRECT_OFFSET ≤ FIRST_REDIRECT_OFFSET + 2 * g := by omega
  have hs2 : FIRST_REDIRECT_OFFSET + 2 * g ≤ LAST_REDIRECT_OFFSET N := by
    rw [hlast]; omega
  have ht1 : FIRST_REDIRECT_OFFSET ≤ FIRST_REDIRECT_OFFSET + 2 * g + 1 := by omega
  have ht2 : FIRST_REDIRECT_OFFSET + 2 * g + 1 ≤ LAST_REDIRECT_OFFSET N := by
    rw [hlast]; omega
  have e1 : (FIRST_REDIRECT_OFFSET + 2 * g) % 2 ^ 32 = FIRST_REDIRECT_OFFSET + 2 * g := by
    simp only [FIRST_REDIRECT_OFFSET] at *; omega
  have e2 : (FIRST_REDIRECT_OFFSET + 2 * g + 1) % 2 ^ 32 = FIRST_REDIRECT_OFFSET + 2 * g + 1 := by
    simp only [FIRST_REDIRECT_OFFSET] at *; omega
  have i1 : FIRST_REDIRECT_OFFSET + 2 * g - FIRST_REDIRECT_OFFSET = g * 2 := by omega
  have i2 : FIRST_REDIRECT_OFFSET + 2 * g + 1 - FIRST_REDIRECT_OFFSET = g * 2 + 1 := by omega
  have hw1 := handler_window_write_redirect N base rej
    ⟨FIRST_REDIRECT_OFFSET + 2 * g, io.id, io.redirect⟩ v hlen hs1 hs2
  have hw2 := handler_window_write_redirect N base rej
    ⟨FIRST_REDIRECT_OFFSET + 2 * g + 1, io.id, io.redirect.set (g * 2) v⟩ u
    (by simp [hlen]) ht1 ht2
  simp only [i1, Nat.mod_eq_of_lt hv] at hw1
  simp only [i2] at hw2
  refine ⟨⟨FIRST_REDIRECT_OFFSET + 2 * g, io.id, io.redirect.set (g * 2) v⟩,
    ⟨FIRST_REDIRECT_OFFSET + 2 * g + 1, io.id,
      (io.redirect.set (g * 2) v).set (g * 2 + 1) (u % 2 ^ 32)⟩, ?_, ?_, ?_, ?_⟩
  · simp only [io_apic_run, handler_select_write, e1, hw1]
  · have hlt : g * 2 < io.redirect.length := by omega
    simp [io_apic_redirect, List.getElem?_set_self, hlt]
  · simp only [io_apic_run, handler_select_write, e2, hw2]
  · have hlt : g * 2 < io.redirect.length := by omega
    have hne : g * 2 + 1 ≠ g * 2 := by omega
    simp [io_apic_redirect, List.getElem?_set_ne hne, List.getElem?_set_self, hlt]

/-- Witness of C13: 128 redirect slots, global interrupt 4, the value 0x10031
programmed into the low half and 0xff000000 into the high half; the vector is
0x31. -/
theorem C13_redirect_vector_witness :
    ∃ io2 io3,
      io_apic_run 128 0xfec00000 MX_ERR_NOT_SUPPORTED (io_apic_init 128)
        [select_write 0xfec00000 (FIRST_REDIRECT_OFFSET + 2 * 4), window_write 0xfec00000 0x10031]
        = .ok ⟨MX_OK, io2, none⟩ ∧
      io_apic_redirect io2 4 = .ok (0x10031 % 256) ∧
      io_apic_run 128 0xfec00000 MX_ERR_NOT_SUPPORTED io2
        [select_write 0xfec00000 (FIRST_REDIRECT_OFFSET + 2 * 4 + 1),
          window_write 0xfec00000 0xff000000]
        = .ok ⟨MX_OK, io3, none⟩ ∧
      io_apic_redirect io3 4 = .ok (0x10031 % 256) :=
  C13_redirect_vector 128 0xfec00000 MX_ERR_NOT_SUPPORTED (io_apic_init 128) 4 0x10031
    0xff000000 (by simp [io_apic_init]) (by decide) (by decide) (by decide) (by decide)

/-! ## Theorems: null backend, block invariant, initialisation -/

/-- C14: the null backend follows the request table for every request. For a
read (IN) request `null_req` returns OK and zeroes the first `len` bytes of the
buffer, leaving every byte behind them as it was; for a write (OUT) request it
returns OK and leaves the buffer as it was; for a flush request it returns OK
if and only if the sector is 0, and leaves the buffer as it was. `null_req` is
a function of the request, the buffer and the length only: it has no host to
call. -/
theorem C14_null_req (blk_req : virtio_blk_req_t) (addr : List Nat) (len : Nat) :
    (blk_req.type = VIRTIO_BLK_T_IN →
      (null_req blk_req addr len).status = MX_OK ∧
      (∀ i, i < len → (null_req blk_req addr len).addr[i]? = some 0) ∧
      (∀ i, len ≤ i → (null_req blk_req addr len).addr[i]? = addr[i]?)) ∧
    (blk_req.type = VIRTIO_BLK_T_OUT → null_req blk_req addr len = ⟨MX_OK, addr⟩) ∧
    (blk_req.type = VIRTIO_BLK_T_FLUSH →
      ((null_req blk_req addr len).status = MX_OK ↔ blk_req.sector = 0) ∧
      (null_req blk_req addr len).addr = addr) := by
  refine ⟨?_, ?_, ?_⟩
  · intro ht
    have e : null_req blk_req addr len = ⟨MX_OK, List.replicate len 0 ++ addr.drop len⟩ := by
      simp [null_req, ht]
    rw [e]
    refine ⟨rfl, ?_, ?_⟩
    · intro i hi
      simp only []
      rw [List.getElem?_append_left (by simp [hi])]
      simp [hi]
    · intro i hi
      simp only []
      rw [List.getElem?_append_right (by simp [hi])]
      simp only [List.length_replicate, List.getElem?_drop]
      congr 1
      omega
  · intro ht
    simp [null_req, ht, VIRTIO_BLK_T_IN, VIRTIO_BLK_T_OUT]
  · intro ht
    by_cases hs : blk_req.sector = 0
    · simp [null_req, ht, hs, VIRTIO_BLK_T_IN, VIRTIO_BLK_T_OUT, VIRTIO_BLK_T_FLUSH]
    · simp [null_req, ht, hs, VIRTIO_BLK_T_IN, VIRTIO_BLK_T_OUT, VIRTIO_BLK_T_FLUSH]

/-- Witness of C14: a read of 2 bytes into a 3-byte buffer, a write, and a flush
with sector 0. -/
theorem C14_null_req_witness :
    (null_req ⟨VIRTIO_BLK_T_IN, 0, 4⟩ [7, 8, 9] 2).addr[1]? = some 0 ∧
    (null_req ⟨VIRTIO_BLK_T_IN, 0, 4⟩ [7, 8, 9] 2).addr[2]? = [7, 8, 9][2]? ∧
    null_req ⟨VIRTIO_BLK_T_OUT, 0, 4⟩ [7, 8, 9] 2 = ⟨MX_OK, [7, 8, 9]⟩ ∧
    ((null_req ⟨VIRTIO_BLK_T_FLUSH, 0, 0⟩ [7, 8, 9] 2).status = MX_OK ↔ (0 : Nat) = 0) :=
  have hin := (C14_null_req ⟨VIRTIO_BLK_T_IN, 0, 4⟩ [7, 8, 9] 2).1 rfl
  ⟨hin.2.1 1 (by decide), hin.2.2 2 (by decide),
   (C14_null_req ⟨VIRTIO_BLK_T_OUT, 0, 4⟩ [7, 8, 9] 2).2.1 rfl,
   ((C14_null_req ⟨VIRTIO_BLK_T_FLUSH, 0, 0⟩ [7, 8, 9] 2).2.2 rfl).1⟩

theorem file_req_block {σ : Type} (H : host_t σ) (h : σ) (state : file_state_t)
    (blk_req : virtio_blk_req_t) (addr : List Nat) (len : Nat) :
    (file_req H h state blk_req addr len).state.block = state.block := by
  unfold file_req file_req_switch
  simp only []
  repeat' split
  all_goals rfl

theorem size_and_ro_kept_refl (block : block_t) : size_and_ro_kept block block :=
  ⟨rfl, fun hro => hro⟩

theorem virtio_queue_handler_file_block {σ W : Type} (H : host_t σ) (t : vq_call W) :
    ∀ (ctx : file_state_t) (h : σ),
      (virtio_queue_handler (file_req_fn H) t ctx h).ctx.block = ctx.block := by
  induction t with
  | ret status w => intro ctx h; rfl
  | req blk_req addr len next ih =>
    intro ctx h
    simp only [virtio_queue_handler, file_req_fn]
    rw [ih, file_req_block]

theorem file_block_device_mem_eq {σ W : Type} (H : host_t σ) (processor : W → vq_call W) :
    ∀ (fuel : Nat) (block : block_t) (w : W) (h : σ),
      file_block_device_mem H processor fuel block w h =
        (file_block_device (file_processor H processor) block fuel (w, h)).map
          fun d => ⟨d.status, block, d.world.1, d.world.2⟩ := by
  intro fuel
  induction fuel with
  | zero => intro block w h; rfl
  | succ f ih =>
    intro block w h
    have hb := virtio_queue_handler_file_block H (processor w) ⟨block, 0⟩ h
    simp only [] at hb
    simp only [file_block_device_mem, file_block_device, file_processor, hb]
    split
    · rw [ih, Option.map_map]
      rfl
    · rfl

theorem null_block_device_mem_eq {σ W : Type} (processor : W → vq_call W) :
    ∀ (fuel : Nat) (block : block_t) (w : W) (h : σ),
      null_block_device_mem processor fuel block w h =
        (null_block_device (null_processor processor) fuel (w, h)).map
          fun d => ⟨d.status, block, d.world.1, d.world.2⟩ := by
  intro fuel
  induction fuel with
  | zero => intro block w h; rfl
  | succ f ih =>
    intro block w h
    simp only [null_block_device_mem, null_block_device, null_processor]
    split
    · rw [ih, Option.map_map]
      rfl
    · rfl

theorem file_block_device_mem_block {σ W : Type} (H : host_t σ) (processor : W → vq_call W)
    (fuel : Nat) (block : block_t) (w : W) (h : σ) (d : drain_mem_result σ W)
    (hd : file_block_device_mem H processor fuel block w h = some d) : d.block = block := by
  rw [file_block_device_mem_eq, Option.map_eq_some'] at hd
  obtain ⟨_, _, rfl⟩ := hd
  rfl

theorem null_block_device_mem_block {σ W : Type} (processor : W → vq_call W)
    (fuel : Nat) (block : block_t) (w : W) (h : σ) (d : drain_mem_result σ W)
    (hd : null_block_device_mem processor fuel block w h = some d) : d.block = block := by
  rw [null_block_device_mem_eq, Option.map_eq_some'] at hd
  obtain ⟨_, _, rfl⟩ := hd
  rfl

theorem block_read_mem_ok (device : virtio_device_ref) (port : Nat) (vcpu_io : mx_vcpu_io_t)
    (hp : port < 24) :
    ∃ r, block_read_mem device port vcpu_io = .ok r ∧ r.2.2 = device.impl := by
  have hlen : ∀ c : virtio_blk_config_t, (virtio_blk_config_bytes c).length = 24 := by
    intro c
    simp [virtio_blk_config_bytes, le_bytes]
  simp only [block_read_mem, block_read]
  rw [List.getElem?_eq_getElem (by rw [hlen]; exact hp)]
  exact ⟨_, rfl, rfl⟩

/-- C15: no guest-triggered operation changes `block->size` or clears the
read-only feature bit: for each of `file_req`, `null_req`, `block_read`,
`block_write`, one call of the Virtqueue Processor with the callback `file_req`,
`file_block_device`, `null_block_device` and `block_queue_notify`, on every
input, the block after the operation has the size it had before, and the
read-only bit set if it was set before. `block_read` returns for every port
inside the configuration structure, and `block_write` returns not-supported for
every port. The drain loops with the block are the drain loops above on the
processor with its callback, with the block handed back as it was; in them
every call of the Virtqueue Processor starts with that block. -/
theorem C15_block_invariant {σ W : Type} (H : host_t σ) (h : σ) (state : file_state_t)
    (blk_req : virtio_blk_req_t) (addr : List Nat) (len : Nat)
    (vqh : virtio_queue_handler_t W) (processor : W → vq_call W) (device : virtio_device_ref)
    (port : Nat) (vcpu_io : mx_vcpu_io_t) (q fuel : Nat) (w : W) :
    size_and_ro_kept state.block (file_req H h state blk_req addr len).state.block ∧
    (∀ block : block_t,
      size_and_ro_kept block (null_req_fn (C := block_t) block h blk_req addr len).2.1) ∧
    (∀ r, block_read_mem device port vcpu_io = .ok r → size_and_ro_kept device.impl r.2.2) ∧
    (port < 24 →
      ∃ r, block_read_mem device port vcpu_io = .ok r ∧ size_and_ro_kept device.impl r.2.2) ∧
    ((block_write_mem device port).1 = MX_ERR_NOT_SUPPORTED ∧
      size_and_ro_kept device.impl (block_write_mem device port).2) ∧
    size_and_ro_kept state.block
      (virtio_queue_handler (file_req_fn H) (processor w) state h).ctx.block ∧
    (file_block_device_mem H processor fuel device.impl w h =
      (file_block_device (file_processor H processor) device.impl fuel (w, h)).map
        fun d => ⟨d.status, device.impl, d.world.1, d.world.2⟩) ∧
    (∀ d, file_block_device_mem H processor fuel device.impl w h = some d →
      size_and_ro_kept device.impl d.block) ∧
    (null_block_device_mem processor fuel device.impl w h =
      (null_block_device (null_processor processor) fuel (w, h)).map
        fun d => ⟨d.status, device.impl, d.world.1, d.world.2⟩) ∧
    (∀ d, null_block_device_mem processor fuel device.impl w h = some d →
      size_and_ro_kept device.impl d.block) ∧
    (∀ d, block_queue_notify_mem H processor device q fuel w h = some d →
      size_and_ro_kept device.impl d.block) ∧
    (∀ d, file_block_device vqh device.impl fuel w = some d →
      ∀ c, c ∈ d.contexts → size_and_ro_kept device.impl c.block) ∧
    (∀ d, block_queue_notify vqh device q fuel w = some d →
      ∀ c, c ∈ d.contexts → size_and_ro_kept device.impl c.block) := by
  have key : ∀ d, file_block_device vqh device.impl fuel w = some d →
      ∀ c, c ∈ d.contexts → size_and_ro_kept device.impl c.block := by
    intro d hd c hc
    rw [(file_block_device_sound vqh device.impl fuel w d hd).2 c hc]
    exact size_and_ro_kept_refl _
  have kmem : ∀ d, file_block_device_mem H processor fuel device.impl w h = some d →
      size_and_ro_kept device.impl d.block := by
    intro d hd
    rw [file_block_device_mem_block H processor fuel device.impl w h d hd]
    exact size_and_ro_kept_refl _
  refine ⟨?_, ?_, ?_, ?_, ⟨rfl, size_and_ro_kept_refl _⟩, ?_,
    file_block_device_mem_eq H processor fuel device.impl w h, kmem,
    null_block_device_mem_eq processor fuel device.impl w h, ?_, ?_, key, ?_⟩
  · rw [file_req_block]
    exact size_and_ro_kept_refl _
  · intro block
    exact size_and_ro_kept_refl _
  · intro r hr
    unfold block_read_mem at hr
    split at hr
    · cases hr
    · cases hr
      exact size_and_ro_kept_refl _
  · intro hp
    obtain ⟨r, hr, hb⟩ := block_read_mem_ok device port vcpu_io hp
    exact ⟨r, hr, by rw [hb]; exact size_and_ro_kept_refl _⟩
  · rw [virtio_queue_handler_file_block]
    exact size_and_ro_kept_refl _
  · intro d hd
    rw [null_block_device_mem_block processor fuel device.impl w h d hd]
    exact size_and_ro_kept_refl _
  · intro d hd
    by_cases hq : q = 0
    · subst hq
      simp only [block_queue_notify_mem, ne_eq, not_true_eq_false, if_false,
        virtio_device_to_block] at hd
      exact kmem d hd
    · simp only [block_queue_notify_mem, ne_eq, hq, not_false_eq_true, if_true,
        Option.some.injEq] at hd
      subst hd
      exact size_and_ro_kept_refl _
  · intro d hd c hc
    by_cases hq : q = 0
    · subst hq
      simp only [block_queue_notify, ne_eq, not_true_eq_false, if_false,
        virtio_device_to_block] at hd
      exact key d hd c hc
    · simp only [block_queue_notify, ne_eq, hq, not_false_eq_true, if_true,
        Option.some.injEq] at hd
      subst hd
      simp at hc

/-- Witness of C15: a read-only device of size 3 whose processor hands one write
request to `file_req` and returns the status of the callback; the drain returns
not-supported and the block after it has size 3 and the read-only bit; so has
the block after a configuration read. -/
theorem C15_block_invariant_witness :
    (∃ d, file_block_device_mem regular_file_host
        (fun (n : Nat) => vq_call.req ⟨VIRTIO_BLK_T_OUT, 0, 0⟩ [9] 1
          (fun s _ => vq_call.ret s (n + 1)))
        1 ⟨3, 3, ⟨VIRTIO_BLK_F_RO, 33, 1⟩⟩ 0 ⟨3, [1, 2, 3], 0, false⟩ = some d ∧
      d.status = MX_ERR_NOT_SUPPORTED ∧
      size_and_ro_kept ⟨3, 3, ⟨VIRTIO_BLK_F_RO, 33, 1⟩⟩ d.block) ∧
    (∃ r, block_read_mem ⟨⟨3, 3, ⟨VIRTIO_BLK_F_RO, 33, 1⟩⟩⟩ 0 ⟨0, 0⟩ = .ok r ∧
      size_and_ro_kept ⟨3, 3, ⟨VIRTIO_BLK_F_RO, 33, 1⟩⟩ r.2.2) :=
  have h := C15_block_invariant regular_file_host ⟨3, [1, 2, 3], 0, false⟩
    ⟨⟨3, 3, ⟨VIRTIO_BLK_F_RO, 33, 1⟩⟩, 0⟩ ⟨VIRTIO_BLK_T_OUT, 0, 0⟩ [9] 1
    (fun (n : Nat) _ => (MX_OK, n + 1))
    (fun (n : Nat) => vq_call.req ⟨VIRTIO_BLK_T_OUT, 0, 0⟩ [9] 1
      (fun s _ => vq_call.ret s (n + 1)))
    ⟨⟨3, 3, ⟨VIRTIO_BLK_F_RO, 33, 1⟩⟩⟩ 0 ⟨0, 0⟩ 0 1 0
  have e : file_block_device_mem regular_file_host
      (fun (n : Nat) => vq_call.req ⟨VIRTIO_BLK_T_OUT, 0, 0⟩ [9] 1
        (fun s _ => vq_call.ret s (n + 1)))
      1 ⟨3, 3, ⟨VIRTIO_BLK_F_RO, 33, 1⟩⟩ 0 ⟨3, [1, 2, 3], 0, false⟩ =
      some ⟨MX_ERR_NOT_SUPPORTED, ⟨3, 3, ⟨VIRTIO_BLK_F_RO, 33, 1⟩⟩, 1,
        ⟨3, [1, 2, 3], 0, false⟩⟩ := by
    simp only [file_block_device_mem, virtio_queue_handler, file_req_fn]
    have hr : file_req regular_file_host ⟨3, [1, 2, 3], 0, false⟩
        ⟨⟨3, 3, ⟨VIRTIO_BLK_F_RO, 33, 1⟩⟩, 0⟩ ⟨VIRTIO_BLK_T_OUT, 0, 0⟩ [9] 1 =
        ⟨MX_ERR_NOT_SUPPORTED, ⟨⟨3, 3, ⟨VIRTIO_BLK_F_RO, 33, 1⟩⟩, 1⟩, [9],
          ⟨3, [1, 2, 3], 0, false⟩, [.lseek 3 0]⟩ := rfl
    rw [hr]
    rfl
  have e2 : block_read_mem ⟨⟨3, 3, ⟨VIRTIO_BLK_F_RO, 33, 1⟩⟩⟩ 0 ⟨0, 0⟩ =
      .ok (MX_OK, ⟨1, 0⟩, ⟨3, 3, ⟨VIRTIO_BLK_F_RO, 33, 1⟩⟩) := by
    rfl
  ⟨⟨_, e, rfl, h.2.2.2.2.2.2.2.1 _ e⟩, ⟨_, e2, h.2.2.1 _ e2⟩⟩

/-- C16: with the host calls given by their outcomes, `block_init` returns OK if
and only if the read-write open or the read-only open succeeds and the
end-of-file seek on the descriptor obtained succeeds, and the I/O error
otherwise. On OK the descriptor is the one obtained, `block->size` is the value
the end-of-file seek returned (the length of the backing file), and the
read-only feature bit is set if and only if the read-write open failed and the
read-only open succeeded. -/
theorem C16_block_init (open_rdwr open_rdonly : Int) (lseek_end : Int → Int) :
    ((block_init open_rdwr open_rdonly lseek_end).1 = MX_OK ↔
      (0 ≤ open_rdwr ∨ 0 ≤ open_rdonly) ∧
        0 ≤ lseek_end (if 0 ≤ open_rdwr then open_rdwr else open_rdonly)) ∧
    ((block_init open_rdwr open_rdonly lseek_end).1 = MX_OK ∨
      (block_init open_rdwr open_rdonly lseek_end).1 = MX_ERR_IO) ∧
    ((block_init open_rdwr open_rdonly lseek_end).1 = MX_OK →
      (block_init open_rdwr open_rdonly lseek_end).2.fd =
        (if 0 ≤ open_rdwr then open_rdwr else open_rdonly) ∧
      ((block_init open_rdwr open_rdonly lseek_end).2.size : Int) =
        lseek_end (if 0 ≤ open_rdwr then open_rdwr else open_rdonly) ∧
      ((block_init open_rdwr open_rdonly lseek_end).2.virtio_device.features
          &&& VIRTIO_BLK_F_RO ≠ 0 ↔ open_rdwr < 0 ∧ 0 ≤ open_rdonly)) := by
  have hro : (block_null_init.virtio_device.features ||| VIRTIO_BLK_F_RO)
      &&& VIRTIO_BLK_F_RO ≠ 0 := by decide
  have hrw : block_null_init.virtio_device.features &&& VIRTIO_BLK_F_RO = 0 := by decide
  by_cases h1 : open_rdwr < 0
  · have h1n : ¬ 0 ≤ open_rdwr := by omega
    by_cases h2 : open_rdonly < 0
    · have h2n : ¬ 0 ≤ open_rdonly := by omega
      simp [block_init, h1, h2, h1n, h2n]
    · have h2p : 0 ≤ open_rdonly := by omega
      by_cases h3 : lseek_end open_rdonly < 0
      · have h3n : ¬ 0 ≤ lseek_end open_rdonly := by omega
        simp [block_init, block_init_size, h1, h2, h1n, h3, h3n]
      · have h3p : 0 ≤ lseek_end open_rdonly := by omega
        simp only [block_init, block_init_size, h1, h2, h1n, h3, h3p, h2p, if_true, if_false]
        simp [hro, h3p]
  · have h1p : 0 ≤ open_rdwr := by omega
    by_cases h3 : lseek_end open_rdwr < 0
    · have h3n : ¬ 0 ≤ lseek_end open_rdwr := by omega
      simp [block_init, block_init_size, h1, h1p, h3, h3n]
    · have h3p : 0 ≤ lseek_end open_rdwr := by omega
      simp only [block_init, block_init_size, h1, h1p, h3, h3p, if_true, if_false]
      simp [hrw, h3p, h1]

/-- Witness of C16: the read-write open fails, the read-only open returns
descriptor 3 and the end-of-file seek returns 1000; and a run in which both
opens fail. -/
theorem C16_block_init_witness :
    (block_init (-1) 3 (fun _ => 1000)).1 = MX_OK ∧
    ((block_init (-1) 3 (fun _ => 1000)).2.size : Int) = 1000 ∧
    (block_init (-1) 3 (fun _ => 1000)).2.virtio_device.features &&& VIRTIO_BLK_F_RO ≠ 0 ∧
    (block_init (-1) (-1) (fun _ => 1000)).1 = MX_ERR_IO :=
  have h := C16_block_init (-1) 3 (fun _ => 1000)
  have hok : (block_init (-1) 3 (fun _ => 1000)).1 = MX_OK := h.1.mpr (by decide)
  ⟨hok, (h.2.2 hok).2.1, (h.2.2 hok).2.2.mpr (by decide),
   ((C16_block_init (-1) (-1) (fun _ => 1000)).2.1).resolve_left (by decide)⟩

theorem file_req_seek_first {σ : Type} (H : host_t σ) (h : σ) (state : file_state_t)
    (blk_req : virtio_blk_req_t) (addr : List Nat) (len : Nat)
    (ht : blk_req.type ≠ VIRTIO_BLK_T_FLUSH) :
    (file_req H h state blk_req addr len).calls.head? =
        some (.lseek state.block.fd (file_req_offset state blk_req)) ∧
      (file_req H h state blk_req addr len).state = file_req_advance state len := by
  rw [file_req_not_flush H h state blk_req addr len ht]
  unfold file_req_switch
  simp only []
  repeat' split
  all_goals exact ⟨rfl, rfl⟩

theorem file_req_flush_state {σ : Type} (H : host_t σ) (h : σ) (state : file_state_t)
    (blk_req : virtio_blk_req_t) (addr : List Nat) (len : Nat)
    (ht : blk_req.type = VIRTIO_BLK_T_FLUSH) :
    (file_req H h state blk_req addr len).state = state := by
  unfold file_req file_req_switch
  simp only [ht, ne_eq, not_true_eq_false, if_false]
  repeat' split
  all_goals rfl

theorem to_off_t_to_uint64 (i : Int) (h1 : -2 ^ 63 ≤ i) (h2 : i < 2 ^ 63) :
    to_off_t (to_uint64 i) = i := by
  unfold to_off_t to_uint64
  split <;> omega

/-- C18: on every call whose request type is not FLUSH, whatever the outcome of
the call (failed seek, write rejected on a read-only device, unknown type,
short read or write), `file_req` leaves `state->off + len` in the cumulative
offset, which is the old offset advanced by exactly `len` as long as the sum
stays in the range of `off_t`; on every FLUSH call it leaves the cumulative
offset (and the whole context) unchanged; and `file_block_device` starts every
call of the Virtqueue Processor with the cumulative offset 0: when the
processor returns `MX_ERR_NEXT` `k` times and then another status, the loop
returns and the `k + 1` contexts it passed are all `{ block, 0 }`. -/
theorem C18_cumulative_offset {σ W : Type} (H : host_t σ) (h : σ) (state : file_state_t)
    (blk_req : virtio_blk_req_t) (addr : List Nat) (len : Nat)
    (vqh : virtio_queue_handler_t W) (block : block_t) (fuel : Nat) (w : W) :
    (blk_req.type ≠ VIRTIO_BLK_T_FLUSH →
      (file_req H h state blk_req addr len).state = file_req_advance state len ∧
      (-2 ^ 63 ≤ state.off → state.off + len < 2 ^ 63 →
        (file_req H h state blk_req addr len).state.off = state.off + len)) ∧
    (blk_req.type = VIRTIO_BLK_T_FLUSH →
      (file_req H h state blk_req addr len).state = state) ∧
    (∀ d, file_block_device vqh block fuel w = some d → ∀ c, c ∈ d.contexts → c.off = 0) ∧
    (∀ k, (∀ i, i < k → handler_status vqh block i w = MX_ERR_NEXT) →
      handler_status vqh block k w ≠ MX_ERR_NEXT → k < fuel →
      ∃ d, file_block_device vqh block fuel w = some d ∧
        d.contexts = List.replicate (k + 1) ⟨block, 0⟩) := by
  refine ⟨?_, file_req_flush_state H h state blk_req addr len, ?_,
    fun k hnext hne hfuel => ⟨_, file_block_device_run vqh block k fuel w hnext hne hfuel, rfl⟩⟩
  · intro ht
    have hs := (file_req_seek_first H h state blk_req addr len ht).2
    refine ⟨hs, ?_⟩
    intro h1 h2
    rw [hs]
    exact to_off_t_to_uint64 _ (by omega) h2
  · intro d hd c hc
    rw [(file_block_device_sound vqh block fuel w d hd).2 c hc]

/-- Witness of C18: a write rejected on a read-only device, with 100 as the
cumulative offset and a buffer of 7 bytes: the offset becomes 107; a request of
unknown type whose seek fails: the offset becomes 7; and a flush: the offset
stays 100. -/
theorem C18_cumulative_offset_witness :
    (file_req regular_file_host ⟨3, [1, 2, 3], 0, false⟩ ⟨⟨3, 3, ⟨VIRTIO_BLK_F_RO, 33, 1⟩⟩, 100⟩
        ⟨VIRTIO_BLK_T_OUT, 0, 0⟩ [9] 7).state.off = 100 + (7 : Nat) ∧
    (file_req regular_file_host ⟨3, [1, 2, 3], 0, false⟩ ⟨⟨3, 3, ⟨VIRTIO_BLK_F_RO, 33, 1⟩⟩, 0⟩
        ⟨7, 0, 2 ^ 54⟩ [9] 7).state.off = 0 + (7 : Nat) ∧
    (file_req regular_file_host ⟨3, [1, 2, 3], 0, false⟩ ⟨⟨3, 3, ⟨VIRTIO_BLK_F_RO, 33, 1⟩⟩, 100⟩
        ⟨VIRTIO_BLK_T_FLUSH, 0, 0⟩ [9] 7).state
      = ⟨⟨3, 3, ⟨VIRTIO_BLK_F_RO, 33, 1⟩⟩, 100⟩ :=
  ⟨((C18_cumulative_offset regular_file_host ⟨3, [1, 2, 3], 0, false⟩
      ⟨⟨3, 3, ⟨VIRTIO_BLK_F_RO, 33, 1⟩⟩, 100⟩ ⟨VIRTIO_BLK_T_OUT, 0, 0⟩ [9] 7
      (fun (n : Nat) _ => (MX_OK, n)) ⟨3, 3, ⟨0, 33, 1⟩⟩ 1 0).1 (by decide)).2
      (by decide) (by decide),
   ((C18_cumulative_offset regular_file_host ⟨3, [1, 2, 3], 0, false⟩
      ⟨⟨3, 3, ⟨VIRTIO_BLK_F_RO, 33, 1⟩⟩, 0⟩ ⟨7, 0, 2 ^ 54⟩ [9] 7
      (fun (n : Nat) _ => (MX_OK, n)) ⟨3, 3, ⟨0, 33, 1⟩⟩ 1 0).1 (by decide)).2
      (by decide) (by decide),
   (C18_cumulative_offset regular_file_host ⟨3, [1, 2, 3], 0, false⟩
      ⟨⟨3, 3, ⟨VIRTIO_BLK_F_RO, 33, 1⟩⟩, 100⟩ ⟨VIRTIO_BLK_T_FLUSH, 0, 0⟩ [9] 7
      (fun (n : Nat) _ => (MX_OK, n)) ⟨3, 3, ⟨0, 33, 1⟩⟩ 1 0).2.1 rfl⟩

/-! ## Theorems: the seek offset -/

theorem file_req_offset_eq (state : file_state_t) (blk_req : virtio_blk_req_t) :
    file_req_offset state blk_req =
      to_off_t ((((blk_req.sector * 512 : Nat) : Int) + state.off) % 2 ^ 64).toNat := by
  have key : ((blk_req.sector * 512) % 2 ^ 64 + (state.off % 2 ^ 64).toNat) % 2 ^ 64 =
      ((((blk_req.sector * 512 : Nat) : Int) + state.off) % 2 ^ 64).toNat % 2 ^ 64 := by
    omega
  unfold file_req_offset to_off_t to_uint64 SECTOR_SIZE
  rw [key]

theorem file_req_offset_exact (state : file_state_t) (blk_req : virtio_blk_req_t)
    (h0 : 0 ≤ state.off) (h1 : ((blk_req.sector * 512 : Nat) : Int) + state.off < 2 ^ 63) :
    file_req_offset state blk_req = ((blk_req.sector * 512 : Nat) : Int) + state.off ∧
      0 ≤ file_req_offset state blk_req := by
  have e : file_req_offset state blk_req = ((blk_req.sector * 512 : Nat) : Int) + state.off := by
    unfold file_req_offset to_off_t to_uint64 SECTOR_SIZE
    split <;> omega
  rw [e]
  exact ⟨rfl, by omega⟩

/-- C20 (amended): for a request that is not a flush, the first host call of
`file_req` is `lseek` with the offset `(sector * 512 + cumulative_offset) mod 2^64`
reinterpreted as a signed 64-bit integer; the offset does not depend on the
block, so the sector is not checked against the capacity. The offset equals
the exact integer `sector * 512 + cumulative_offset` and is non-negative whenever
the cumulative offset is non-negative and that sum is below `2^63`, for example
for every sector below `2^53` and cumulative offset below `2^62`; and two
requests whose sectors differ by `2^55` are seeked to the same file offset. -/
theorem C20_seek_offset {σ : Type} (H : host_t σ) (h : σ) (state : file_state_t)
    (blk_req : virtio_blk_req_t) (addr : List Nat) (len : Nat) :
    (blk_req.type ≠ VIRTIO_BLK_T_FLUSH →
      (file_req H h state blk_req addr len).calls.head? =
        some (.lseek state.block.fd (file_req_offset state blk_req))) ∧
    file_req_offset state blk_req =
      to_off_t ((((blk_req.sector * 512 : Nat) : Int) + state.off) % 2 ^ 64).toNat ∧
    (∀ block : block_t, file_req_offset ⟨block, state.off⟩ blk_req =
      file_req_offset state blk_req) ∧
    (0 ≤ state.off → ((blk_req.sector * 512 : Nat) : Int) + state.off < 2 ^ 63 →
      file_req_offset state blk_req = ((blk_req.sector * 512 : Nat) : Int) + state.off ∧
      0 ≤ file_req_offset state blk_req) ∧
    (blk_req.sector < 2 ^ 53 → 0 ≤ state.off → state.off < 2 ^ 62 →
      file_req_offset state blk_req = ((blk_req.sector * 512 : Nat) : Int) + state.off ∧
      0 ≤ file_req_offset state blk_req) ∧
    file_req_offset state ⟨blk_req.type, blk_req.ioprio, blk_req.sector + 2 ^ 55⟩ =
      file_req_offset state blk_req := by
  refine ⟨fun ht => (file_req_seek_first H h state blk_req addr len ht).1,
    file_req_offset_eq state blk_req, fun _ => rfl, file_req_offset_exact state blk_req, ?_, ?_⟩
  · intro hs h0 h1
    exact file_req_offset_exact state blk_req h0 (by omega)
  · have e : ((blk_req.sector + 2 ^ 55) * SECTOR_SIZE) % 2 ^ 64 =
        (blk_req.sector * SECTOR_SIZE) % 2 ^ 64 := by
      unfold SECTOR_SIZE
      omega
    unfold file_req_offset
    simp only [e]

/-- Witness of C20 (amended): sector 4 with cumulative offset 512 is seeked to
2560, and sector `4 + 2^55` to the same offset. -/
theorem C20_seek_offset_witness :
    file_req_offset ⟨⟨3, 3, ⟨0, 33, 1⟩⟩, 512⟩ ⟨VIRTIO_BLK_T_IN, 0, 4⟩
      = ((4 * 512 : Nat) : Int) + 512 ∧
    file_req_offset ⟨⟨3, 3, ⟨0, 33, 1⟩⟩, 512⟩ ⟨VIRTIO_BLK_T_IN, 0, 4 + 2 ^ 55⟩
      = file_req_offset ⟨⟨3, 3, ⟨0, 33, 1⟩⟩, 512⟩ ⟨VIRTIO_BLK_T_IN, 0, 4⟩ :=
  have h := C20_seek_offset regular_file_host ⟨3, [1, 2, 3], 0, true⟩
    ⟨⟨3, 3, ⟨0, 33, 1⟩⟩, 512⟩ ⟨VIRTIO_BLK_T_IN, 0, 4⟩ [9] 1
  ⟨(h.2.2.2.2.1 (by decide) (by decide) (by decide)).1, h.2.2.2.2.2⟩

/-- Counterexample to C20 as stated: sector `2^54 - 1` is below `2^54` and the
cumulative offset `2^62 - 1` is below `2^62`, but the sum
`sector * 512 + cumulative_offset` is not below `2^63`: the offset passed to
`lseek` is negative and differs from that sum. -/
theorem C20_counterexample :
    (2 ^ 54 - 1 : Nat) < 2 ^ 54 ∧ (2 ^ 62 - 1 : Int) < 2 ^ 62 ∧
    file_req_offset ⟨⟨3, 3, ⟨0, 33, 1⟩⟩, 2 ^ 62 - 1⟩ ⟨VIRTIO_BLK_T_IN, 0, 2 ^ 54 - 1⟩ < 0 ∧
    file_req_offset ⟨⟨3, 3, ⟨0, 33, 1⟩⟩, 2 ^ 62 - 1⟩ ⟨VIRTIO_BLK_T_IN, 0, 2 ^ 54 - 1⟩
      ≠ (((2 ^ 54 - 1) * 512 : Nat) : Int) + (2 ^ 62 - 1) := by
  decide

end Magenta
